import Mathlib

/-!
Shallow embedding of the ecommerce backend (api.py, database/models.py,
database/repositories_simple.py, services/auth_service.py,
services/payment_service.py) used to settle the specification claims.

Conventions of the embedding:
* UUID primary keys are abstracted as `Nat`; fresh ids come from a `nextId`
  counter in the state (the source uses `uuid.uuid4()`).
* Timestamps (`datetime.now(UTC)`) are abstract `Nat` ticks passed in as a
  `now` parameter.
* Python `int` columns are `Int`; status-like string columns stay `String`
  where the source stores plain strings (Payment.status, delivery_status).
* The database is an explicit record of tables (lists of rows); each
  repository `commit` is modelled as a pure state transformation.
* The payment gateway is modelled in simulation mode
  (`STRIPE_USE_SIMULATION` defaults to `"true"`); the random hex suffixes of
  `uuid4().hex[:24]` are passed in as explicit string parameters.
-/

namespace ECommerce

/-- Modelled from the spec: the repository imports `from enums import
OrderStatus`, but `enums.py` itself is not under src/. Spec section 4.1 fixes
the closed vocabulary: CREE, VALIDEE, PAYEE, EXPEDIEE, LIVREE, ANNULEE,
REMBOURSEE, a plain string-backed enumeration compared by value equality. -/
inductive OrderStatus where
  | CREE
  | VALIDEE
  | PAYEE
  | EXPEDIEE
  | LIVREE
  | ANNULEE
  | REMBOURSEE
deriving DecidableEq, Repr

/-! ### String helpers

The Python code manipulates card numbers and hashes with `str.startswith`,
`str.endswith`, slicing and `str.replace`.  We model those operations on
`List Char` to keep proofs structural. -/

/-- Python `s.startswith(t)`. -/
def strStartsWith (s t : String) : Bool :=
  t.toList.isPrefixOf s.toList

/-- Python `s.endswith(t)`. -/
def strEndsWith (s t : String) : Bool :=
  t.toList.isSuffixOf s.toList

/-- Python `s[-n:]` for `n ≤ len(s)` (used as `card_number[-4:]` under a
length guard). -/
def strTakeRight (s : String) (n : Nat) : String :=
  String.mk (s.toList.drop (s.toList.length - n))

/-- Python `s.replace(a, "")` for a single character `a` (used to strip the
spaces and dashes of card numbers). -/
def strRemoveChar (s : String) (c : Char) : String :=
  String.mk (s.toList.filter (fun x => x ≠ c))

/-! ### Input validation library

Modelled from the spec: `api.py` imports these functions from
`utils.validations`, a module of this repository that is not under src/.
Each definition follows spec section 4.5 (and the expectations of
src/tests/test_validations.py).  Only the presence of the error messages matters
to the API layer; we reproduce the documented French fragments. -/

/-- Modelled from the spec: `sanitize_numeric(value)` returns only the ASCII
digit characters of `value`, preserving order. -/
def sanitize_numeric (value : String) : String :=
  String.mk (value.toList.filter Char.isDigit)

/-- One step of the Luhn doubling rule: double the digit and subtract 9 when
the result exceeds 9. -/
def luhnDouble (d : Nat) : Nat :=
  if 2 * d > 9 then 2 * d - 9 else 2 * d

/-- Luhn checksum total: starting from the rightmost digit, every second
digit moving leftward is doubled (with the subtract-9 adjustment). -/
def luhnSum (ds : List Nat) : Nat :=
  (ds.reverse.enum.map (fun p => if p.1 % 2 == 1 then luhnDouble p.2 else p.2)).sum

/-- All characters of the list are identical (degenerate-input guard). -/
def allSameChars (l : List Char) : Bool :=
  match l with
  | [] => true
  | c :: rest => rest.all (fun x => x == c)

/-- Modelled from the spec: `validate_luhn(digits)` — valid iff the input is
non-empty, not all-identical digits, and the Luhn total is a multiple of
ten. -/
def validate_luhn (digits : String) : Bool :=
  let l := digits.toList
  if l.isEmpty then false
  else if allSameChars l then false
  else (luhnSum (l.map (fun c => c.toNat - 48))) % 10 == 0

/-- Modelled from the spec: `validate_card_number(raw)` strips spaces/dashes
via `sanitize_numeric`, requires length in [13, 19], then the Luhn check. -/
def validate_card_number (raw : String) : Bool × String :=
  let digits := sanitize_numeric raw
  if digits.toList.length < 13 || digits.toList.length > 19 then
    (false, "Le numéro de carte doit contenir entre 13 à 19 chiffres")
  else if !(validate_luhn digits) then
    (false, "Numéro de carte invalide")
  else (true, "")

/-- Modelled from the spec: `validate_cvv(raw)` — digits only, length 3 or
4. -/
def validate_cvv (raw : String) : Bool × String :=
  let l := raw.toList
  if l.all Char.isDigit && (l.length == 3 || l.length == 4) then (true, "")
  else (false, "Le CVV doit contenir 3 ou 4 chiffres")

/-- Modelled from the spec: `validate_expiry_month(month)` — integer in
[1, 12]. -/
def validate_expiry_month (month : Int) : Bool × String :=
  if 1 ≤ month && month ≤ 12 then (true, "")
  else (false, "Mois expiration invalide")

/-- Modelled from the spec: `validate_expiry_year(year)` — integer in
[2000, 2100]. -/
def validate_expiry_year (year : Int) : Bool × String :=
  if 2000 ≤ year && year ≤ 2100 then (true, "")
  else (false, "Annee expiration invalide")

/-- Modelled from the spec: `validate_expiry_date(month, year)` — both
component checks pass and (month, year) is not strictly before the current
(month, year).  The current date is an explicit parameter of the model. -/
def validate_expiry_date (nowMonth nowYear month year : Int) : Bool × String :=
  if !(validate_expiry_month month).1 then validate_expiry_month month
  else if !(validate_expiry_year year).1 then validate_expiry_year year
  else if year < nowYear || (year == nowYear && month < nowMonth) then
    (false, "Date expiration invalide")
  else (true, "")

/-- Modelled from the spec: `validate_postal_code(raw)` — sanitize then
require exactly 5 digits. -/
def validate_postal_code (raw : String) : Bool × String :=
  if (sanitize_numeric raw).toList.length == 5 then (true, "")
  else (false, "Le code postal doit contenir 5 chiffres")

/-- Modelled from the spec: `validate_phone(raw)` — sanitize then require
exactly 10 digits whose first two digits form "01" through "09". -/
def validate_phone (raw : String) : Bool × String :=
  let d := (sanitize_numeric raw).toList
  match d with
  | c0 :: c1 :: _ =>
    if d.length == 10 && c0 == '0' && '1' ≤ c1 && c1 ≤ '9' then (true, "")
    else (false, "Le numéro doit commencer par 01 à 09")
  | _ => (false, "Le numéro doit commencer par 01 à 09")

/-- Modelled from the spec: `validate_street_number(raw)` — non-empty,
digits only (test suite: "12-34" and "12a" are invalid). -/
def validate_street_number (raw : String) : Bool × String :=
  let l := raw.toList
  if !l.isEmpty && l.all Char.isDigit then (true, "")
  else (false, "Le numéro de rue doit contenir des chiffres uniquement")

/-- A character allowed in a street name: letter, digit, space, apostrophe
or hyphen (accented Latin letters approximated by `Char.isAlpha`). -/
def streetNameChar (c : Char) : Bool :=
  c.isAlpha || c.isDigit || c == ' ' || c == '\'' || c == '-'

/-- Modelled from the spec: `validate_street_name(raw)` — collapse internal
whitespace runs to single spaces and trim; non-empty; length between 3 and
100; only letters/digits/spaces/apostrophes/hyphens; at least 2 letters. -/
def validate_street_name (raw : String) : Bool × String :=
  let cleaned := " ".intercalate ((raw.splitOn " ").filter (fun w => w ≠ ""))
  let l := cleaned.toList
  if l.isEmpty then (false, "Le nom de rue est requis")
  else if l.length < 3 then (false, "Le nom de rue doit contenir au moins 3 caractères")
  else if l.length > 100 then (false, "Le nom de rue doit contenir au plus 100 caractères")
  else if !(l.all streetNameChar) then (false, "Le nom de rue est invalide")
  else if (l.filter Char.isAlpha).length < 2 then
    (false, "Le nom de rue doit contenir au moins 2 lettres")
  else (true, "")

/-! ### Payment gateway (services/payment_service.py), simulation mode -/

/-- Result dictionary of `PaymentGateway.charge_card`. -/
structure ChargeResult where
  success : Bool
  transactionId : Option String
  failureReason : Option String
  chargeId : Option String
deriving DecidableEq, Repr

/-- The fixed allow-list `success_cards` of `_simulate_payment`. -/
def successCards : List String :=
  ["4242424242424242", "5555555555554444", "4000002500003155"]

/-- The fixed deny-list `declined_cards` of `_simulate_payment`, with the
processor-specific refusal texts. -/
def declinedCards : List (String × String) :=
  [("4000000000000002", "Votre carte a été refusée."),
   ("4000000000009995", "Votre carte a été refusée. Fonds insuffisants."),
   ("4000000000000069", "Votre carte a expiré."),
   ("4000000000000127", "Le code de sécurité de votre carte est incorrect.")]

/-- `PaymentGateway._simulate_payment`: cleans the card number of spaces and
dashes, then checks the deny-list, the allow-list / 4242- and
5555-prefixes, the trailing-"0000" generic refusal, and accepts by default.
`hex1`/`hex2` stand for the two random `uuid4().hex[:24]` suffixes. -/
def simulate_payment (cardNumber : String) (hex1 hex2 : String) : ChargeResult :=
  let clean := strRemoveChar (strRemoveChar cardNumber ' ') '-'
  match (declinedCards.find? (fun p => p.1 == clean)) with
  | some p => { success := false, transactionId := none,
                failureReason := some p.2, chargeId := none }
  | none =>
    if clean ∈ successCards || strStartsWith clean "4242" || strStartsWith clean "5555" then
      { success := true, transactionId := some ("pi_sim_" ++ hex1),
        failureReason := none, chargeId := some ("ch_sim_" ++ hex2) }
    else if strEndsWith clean "0000" then
      { success := false, transactionId := none,
        failureReason := some "Votre carte a été refusée.", chargeId := none }
    else
      { success := true, transactionId := some ("pi_sim_" ++ hex1),
        failureReason := none, chargeId := some ("ch_sim_" ++ hex2) }

/-- Result dictionary of `PaymentGateway.refund`. -/
structure RefundResult where
  success : Bool
  refundId : Option String
  error : Option String
deriving DecidableEq, Repr

/-- `PaymentGateway._simulate_refund`: succeeds for any charge id beginning
with a recognized charge-id prefix, else fails with "charge_id invalide". -/
def simulate_refund (chargeId : String) (hex1 : String) : RefundResult :=
  if chargeId == "" || (!(strStartsWith chargeId "ch_") && !(strStartsWith chargeId "ch_sim_")) then
    { success := false, refundId := none, error := some "charge_id invalide" }
  else
    { success := true, refundId := some ("re_" ++ hex1), error := none }

/-! ### Data model (database/models.py) -/

/-- `models.User` (the columns the claims touch). -/
structure DUser where
  id : Nat
  email : String
  passwordHash : String
  firstName : String
  lastName : String
  address : String
  isAdmin : Bool
deriving DecidableEq, Repr

/-- `models.Product` (id, name, price_cents, stock_qty, active; the
descriptive text columns play no role in any claim). -/
structure Product where
  id : Nat
  name : String
  priceCents : Int
  stockQty : Int
  active : Bool
deriving DecidableEq, Repr

/-- `models.Cart` — one cart row per user. -/
structure Cart where
  id : Nat
  userId : Nat
deriving DecidableEq, Repr

/-- `models.CartItem` — a line of a cart. -/
structure CartItem where
  cartId : Nat
  productId : Nat
  quantity : Int
deriving DecidableEq, Repr

/-- `models.Order` with its status and stage timestamps. -/
structure Order where
  id : Nat
  userId : Nat
  status : OrderStatus
  createdAt : Nat
  validatedAt : Option Nat
  paidAt : Option Nat
  shippedAt : Option Nat
  deliveredAt : Option Nat
  cancelledAt : Option Nat
  refundedAt : Option Nat
  paymentId : Option Nat
deriving DecidableEq, Repr

/-- `models.OrderItem` — the point-in-time snapshot line of an order. -/
structure OrderItem where
  orderId : Nat
  productId : Nat
  name : String
  unitPriceCents : Int
  quantity : Int
deriving DecidableEq, Repr

/-- `models.Payment`; `status` is an open `String(50)` column in the source,
so it stays a `String` here. -/
structure Payment where
  id : Nat
  orderId : Nat
  amountCents : Int
  status : String
  paymentMethod : String
  cardLast4 : Option String
  postalCode : Option String
  phone : Option String
  streetNumber : Option String
  streetName : Option String
  chargeId : Option String
deriving DecidableEq, Repr

/-- `models.Delivery` — delivery_status is an open string column. -/
structure Delivery where
  orderId : Nat
  transporteur : String
  trackingNumber : Option String
  address : String
  deliveryStatus : String
deriving DecidableEq, Repr

/-- The database state: one list of rows per table, plus a fresh-id
counter standing in for `uuid.uuid4()`. -/
structure St where
  users : List DUser
  products : List Product
  carts : List Cart
  cartItems : List CartItem
  orders : List Order
  orderItems : List OrderItem
  payments : List Payment
  deliveries : List Delivery
  nextId : Nat
deriving DecidableEq, Repr

/-- The empty database. -/
def St.empty : St :=
  { users := [], products := [], carts := [], cartItems := [], orders := [],
    orderItems := [], payments := [], deliveries := [], nextId := 0 }

/-- Replace every element satisfying `p` by `y` (the effect of committing a
mutated ORM row back to its table). -/
def replaceBy (p : α → Bool) (y : α) (l : List α) : List α :=
  l.map (fun x => if p x then y else x)

/-! ### Repository layer (database/repositories_simple.py) -/

/-- `PostgreSQLUserRepository.get_by_id`. -/
def user_get_by_id (st : St) (userId : Nat) : Option DUser :=
  st.users.find? (fun u => u.id == userId)

/-- `PostgreSQLUserRepository.get_by_email`. -/
def user_get_by_email (st : St) (email : String) : Option DUser :=
  st.users.find? (fun u => u.email == email)

/-- `PostgreSQLProductRepository.get_by_id`. -/
def product_get_by_id (st : St) (productId : Nat) : Option Product :=
  st.products.find? (fun p => p.id == productId)

/-- `PostgreSQLProductRepository.update`: commits the mutated product row. -/
def product_update (st : St) (p : Product) : St :=
  { st with products := replaceBy (fun q => q.id == p.id) p st.products }

/-- `PostgreSQLOrderRepository.get_by_id`. -/
def order_get_by_id (st : St) (orderId : Nat) : Option Order :=
  st.orders.find? (fun o => o.id == orderId)

/-- The `order.items` relationship: the OrderItem rows of an order. -/
def order_items_of (st : St) (orderId : Nat) : List OrderItem :=
  st.orderItems.filter (fun it => it.orderId == orderId)

/-- `Order.total_cents()`: sum of `unit_price_cents * quantity` over the
items of the order. -/
def order_total_cents (st : St) (orderId : Nat) : Int :=
  ((order_items_of st orderId).map (fun it => it.unitPriceCents * it.quantity)).sum

/-- `PostgreSQLOrderRepository.create`: stamps `created_at` itself and
ignores any caller-supplied timestamp (new rows always get `paid_at` and the
other stage timestamps absent). -/
def order_repo_create (st : St) (userId : Nat) (status : OrderStatus) (now : Nat) : St × Order :=
  let order : Order :=
    { id := st.nextId, userId := userId, status := status, createdAt := now,
      validatedAt := none, paidAt := none, shippedAt := none,
      deliveredAt := none, cancelledAt := none, refundedAt := none,
      paymentId := none }
  ({ st with orders := st.orders ++ [order], nextId := st.nextId + 1 }, order)

/-- `PostgreSQLOrderRepository.update`, translated step by step:
save `original_created_at`; expire `created_at` (re-read it from the row if
one exists); restore it if it changed; commit the object to its row (adding
the row if absent); refresh from the row; restore `created_at` again and
re-commit if the refreshed value differs. -/
def order_repo_update (st : St) (order : Order) : St × Order :=
  let original := order.createdAt
  -- db.expire of the created_at attribute: the next read comes from the table row
  let dbCreated := match order_get_by_id st order.id with
    | some row => row.createdAt
    | none => order.createdAt
  let order1 := { order with createdAt := dbCreated }
  -- restore created_at if the expire changed it
  let order2 := if order1.createdAt ≠ original then { order1 with createdAt := original } else order1
  -- db.commit(): persist the object to its row (db.add when not attached)
  let st1 :=
    if st.orders.any (fun o => o.id == order.id) then
      { st with orders := replaceBy (fun o => o.id == order.id) order2 st.orders }
    else
      { st with orders := st.orders ++ [order2] }
  -- db.refresh(order): reload the object from its row
  let order3 := match order_get_by_id st1 order.id with
    | some row => row
    | none => order2
  -- double check: restore created_at and re-commit if it was modified
  if order3.createdAt ≠ original then
    let order4 := { order3 with createdAt := original }
    ({ st1 with orders := replaceBy (fun o => o.id == order.id) order4 st1.orders }, order4)
  else
    (st1, order3)

/-- `PostgreSQLOrderRepository.update_status`: sets the status and the stage
timestamp matching the new status — there is no branch for `PAYEE` (or
`CREE`). -/
def order_update_status (st : St) (orderId : Nat) (status : OrderStatus) (now : Nat) : St × Bool :=
  match order_get_by_id st orderId with
  | none => (st, false)
  | some order =>
    let order1 := { order with status := status }
    let order2 :=
      match status with
      | .VALIDEE => { order1 with validatedAt := some now }
      | .EXPEDIEE => { order1 with shippedAt := some now }
      | .LIVREE => { order1 with deliveredAt := some now }
      | .ANNULEE => { order1 with cancelledAt := some now }
      | .REMBOURSEE => { order1 with refundedAt := some now }
      | _ => order1
    ({ st with orders := replaceBy (fun o => o.id == orderId) order2 st.orders }, true)

/-- `PostgreSQLCartRepository.get_by_user_id`. -/
def cart_get_by_user_id (st : St) (userId : Nat) : Option Cart :=
  st.carts.find? (fun c => c.userId == userId)

/-- The cart lines of the cart of a user (empty when the user has no cart). -/
def cart_items_of_user (st : St) (userId : Nat) : List CartItem :=
  match cart_get_by_user_id st userId with
  | none => []
  | some c => st.cartItems.filter (fun it => it.cartId == c.id)

/-- `PostgreSQLCartRepository.clear_cart`: deletes all line items of the
cart of the user; returns false when no cart exists. -/
def clear_cart (st : St) (userId : Nat) : St × Bool :=
  match cart_get_by_user_id st userId with
  | none => (st, false)
  | some c =>
    ({ st with cartItems := st.cartItems.filter (fun it => !(it.cartId == c.id)) }, true)

/-- `PostgreSQLPaymentRepository.get_by_id`. -/
def payment_get_by_id (st : St) (paymentId : Nat) : Option Payment :=
  st.payments.find? (fun p => p.id == paymentId)

/-- `PostgreSQLPaymentRepository.get_by_order_id`. -/
def payments_get_by_order_id (st : St) (orderId : Nat) : List Payment :=
  st.payments.filter (fun p => p.orderId == orderId)

/-- The column values handed to `PostgreSQLPaymentRepository.create`. -/
structure PaymentData where
  orderId : Nat
  amountCents : Int
  status : String
  paymentMethod : String
  cardLast4 : Option String
  postalCode : Option String
  phone : Option String
  streetNumber : Option String
  streetName : Option String
  chargeId : Option String
deriving DecidableEq, Repr

/-- `PostgreSQLPaymentRepository.create`: inserts a fresh Payment row. -/
def payment_repo_create (st : St) (d : PaymentData) : St × Payment :=
  let payment : Payment :=
    { id := st.nextId, orderId := d.orderId, amountCents := d.amountCents,
      status := d.status, paymentMethod := d.paymentMethod,
      cardLast4 := d.cardLast4, postalCode := d.postalCode, phone := d.phone,
      streetNumber := d.streetNumber, streetName := d.streetName,
      chargeId := d.chargeId }
  ({ st with payments := st.payments ++ [payment], nextId := st.nextId + 1 }, payment)

/-! ### HTTP API layer (api.py) -/

/-- An `HTTPException(status_code, detail)`. -/
structure ApiErr where
  code : Nat
  detail : String
deriving DecidableEq, Repr

/-- The request body of POST /orders/{order_id}/pay (`PayIn`).  Optional
fields model Python truthiness: `none` and `some ""` are both falsy. -/
structure PayIn where
  cardNumber : String
  cvc : String
  expMonth : Int
  expYear : Int
  postalCode : Option String
  phone : Option String
  streetNumber : Option String
  streetName : Option String
deriving DecidableEq, Repr

/-- Python truthiness of an optional string field. -/
def optTruthy (o : Option String) : Bool :=
  match o with
  | none => false
  | some s => s ≠ ""

/-- An optional payment field fails its validation when it is truthy and the
validator rejects it (`if payment_data.x: ... if not is_valid: raise`). -/
def optFieldFails (o : Option String) (v : String → Bool × String) : Bool :=
  match o with
  | none => false
  | some s => s ≠ "" && !(v s).1

/-- The error message of a failing optional field (unused when it passes). -/
def optFieldErr (o : Option String) (v : String → Bool × String) : String :=
  match o with
  | none => ""
  | some s => (v s).2

/-- Successful response body of the pay endpoint. -/
structure PayOut where
  paymentId : Nat
  status : String
  amountCents : Int
deriving DecidableEq, Repr

/-- The stock decrement loop after a successful payment in `pay_order`:
for each order line, re-read the product, floor the new stock at 0,
deactivate the product when the new stock falls at or below the threshold,
and commit. -/
def decrement_stock_for_items (st : St) (items : List OrderItem) (threshold : Int) : St :=
  items.foldl
    (fun s item =>
      match product_get_by_id s item.productId with
      | none => s
      | some product =>
        let newStock := max 0 (product.stockQty - item.quantity)
        product_update s
          { product with
            stockQty := newStock,
            active := if newStock ≤ threshold then false else product.active })
    st

/-- The Payment-row column values built by `pay_order` from the validated
request (sanitized optional fields, last-4 card digits, the charge id only
on success, and status SUCCEEDED/FAILED mirroring the gateway outcome). -/
def pay_payment_data (st : St) (orderId : Nat) (pd : PayIn) (hex1 hex2 : String) : PaymentData :=
  let cardNumber := sanitize_numeric pd.cardNumber
  let stripeResult := simulate_payment cardNumber hex1 hex2
  { orderId := orderId, amountCents := order_total_cents st orderId,
    status := if stripeResult.success then "SUCCEEDED" else "FAILED",
    paymentMethod := "CARD",
    cardLast4 := if cardNumber.toList.length ≥ 4 then some (strTakeRight cardNumber 4) else none,
    postalCode := pd.postalCode.map sanitize_numeric,
    phone := pd.phone.map sanitize_numeric,
    streetNumber := pd.streetNumber.map sanitize_numeric,
    streetName := pd.streetName,
    chargeId := if stripeResult.success then stripeResult.chargeId else none }

/-- The charge-and-commit tail of `pay_order` (everything after the
validation suite): the simulated gateway charge, the Payment row recorded
for success and failure alike, then — on success — the stock decrement, the
cart clearing and the transition to `PAYEE` recording the payment id. -/
def pay_order_charge (st : St) (orderId uid : Nat) (order : Order) (pd : PayIn)
    (threshold : Int) (hex1 hex2 : String) : St × Except ApiErr PayOut :=
  let stripeResult := simulate_payment (sanitize_numeric pd.cardNumber) hex1 hex2
  let (st1, payment) := payment_repo_create st (pay_payment_data st orderId pd hex1 hex2)
  if !stripeResult.success then
    (st1, .error ⟨402, stripeResult.failureReason.getD "Paiement refusé"⟩)
  else
    let st2 := decrement_stock_for_items st1 (order_items_of st orderId) threshold
    let st3 := (clear_cart st2 uid).1
    let order' := { order with status := OrderStatus.PAYEE, paymentId := some payment.id }
    let (st4, _) := order_repo_update st3 order'
    (st4, .ok ⟨payment.id, "SUCCEEDED", order_total_cents st orderId⟩)

/-- The strict validation suite of `pay_order`, returning the 422 error of
the first failing field, if any (the source raises on the first failure in
the same order). -/
def pay_validations_err (pd : PayIn) (nowMonth nowYear : Int) : Option ApiErr :=
  if !(validate_card_number pd.cardNumber).1 then
    some ⟨422, (validate_card_number pd.cardNumber).2⟩
  else if !(validate_cvv pd.cvc).1 then
    some ⟨422, (validate_cvv pd.cvc).2⟩
  else if !(validate_expiry_date nowMonth nowYear pd.expMonth pd.expYear).1 then
    some ⟨422, (validate_expiry_date nowMonth nowYear pd.expMonth pd.expYear).2⟩
  else if optFieldFails pd.postalCode validate_postal_code then
    some ⟨422, optFieldErr pd.postalCode validate_postal_code⟩
  else if optFieldFails pd.phone validate_phone then
    some ⟨422, optFieldErr pd.phone validate_phone⟩
  else if optFieldFails pd.streetNumber validate_street_number then
    some ⟨422, optFieldErr pd.streetNumber validate_street_number⟩
  else if optFieldFails pd.streetName validate_street_name then
    some ⟨422, optFieldErr pd.streetName validate_street_name⟩
  else none

/-- POST /orders/{order_id}/pay (`pay_order`): ownership and `CREE`-status
guards, the strict validation suite, then the charge-and-commit tail
(`pay_order_charge`).  `nowMonth`/`nowYear` feed the expiry check,
`threshold` is `LOW_STOCK_HIDE_THRESHOLD`, `hex1`/`hex2` the random gateway
suffixes. -/
def pay_order (st : St) (orderId uid : Nat) (pd : PayIn)
    (nowMonth nowYear : Int) (threshold : Int) (hex1 hex2 : String) :
    St × Except ApiErr PayOut :=
  match order_get_by_id st orderId with
  | none => (st, .error ⟨404, "Commande introuvable"⟩)
  | some order =>
    if order.userId ≠ uid then (st, .error ⟨404, "Commande introuvable"⟩)
    else if order.status ≠ OrderStatus.CREE then
      (st, .error ⟨400, "Commande déjà payée ou traitée"⟩)
    else
      match pay_validations_err pd nowMonth nowYear with
      | some e => (st, .error e)
      | none => pay_order_charge st orderId uid order pd threshold hex1 hex2

/-- The refund summary included in a cancellation response. -/
structure RefundInfo where
  amountCents : Int
deriving DecidableEq, Repr

/-- The stock restoration loop of the cancel and refund endpoints: for each
order line, re-read the product, add the quantity back, re-activate the
product when it was inactive and the restored stock is positive, commit. -/
def restore_stock_for_items (st : St) (items : List OrderItem) : St :=
  items.foldl
    (fun s item =>
      match product_get_by_id s item.productId with
      | none => s
      | some product =>
        let product1 := { product with stockQty := product.stockQty + item.quantity }
        let product2 :=
          if !product1.active && product1.stockQty > 0 then
            { product1 with active := true }
          else product1
        product_update s product2)
    st

/-- The shared effects tail of `cancel_order` and `admin_cancel_order`
(the two endpoints duplicate this code verbatim in the source): REFUNDED
flip of the payments of the order when it was `PAYEE`, per-line stock
restoration, and the final `REMBOURSEE`-or-`ANNULEE` transition with its
timestamps. -/
def cancel_order_effects (st : St) (orderId : Nat) (order : Order) (now : Nat) :
    St × Except ApiErr (Option RefundInfo) :=
  let wasPaid := order.status = OrderStatus.PAYEE
  let payments := payments_get_by_order_id st orderId
  let st1 :=
    if wasPaid ∧ payments ≠ [] then
      { st with payments :=
          st.payments.map (fun p =>
            if p.orderId == orderId then { p with status := "REFUNDED" } else p) }
    else st
  let refundInfo : Option RefundInfo :=
    if wasPaid ∧ payments ≠ [] then
      some ⟨(payments.map (fun p => p.amountCents)).sum⟩
    else none
  let st2 := restore_stock_for_items st1 (order_items_of st1 orderId)
  let order' :=
    if wasPaid then
      { order with
        status := OrderStatus.REMBOURSEE
        refundedAt := some now
        cancelledAt := some now }
    else
      { order with status := OrderStatus.ANNULEE, cancelledAt := some now }
  let (st3, _) := order_repo_update st2 order'
  (st3, .ok refundInfo)

/-- POST /orders/{order_id}/cancel (`cancel_order`): ownership check,
cancellable-status guard (`CREE`/`VALIDEE`/`PAYEE`), then the shared
cancellation effects. -/
def cancel_order (st : St) (orderId uid : Nat) (now : Nat) :
    St × Except ApiErr (Option RefundInfo) :=
  match order_get_by_id st orderId with
  | none => (st, .error ⟨404, "Commande introuvable"⟩)
  | some order =>
    if order.userId ≠ uid then (st, .error ⟨404, "Commande introuvable"⟩)
    else if !(order.status = OrderStatus.CREE ∨ order.status = OrderStatus.VALIDEE ∨
              order.status = OrderStatus.PAYEE : Bool) then
      (st, .error ⟨400, "Cette commande ne peut pas être annulée"⟩)
    else
      cancel_order_effects st orderId order now

/-- POST /admin/orders/{order_id}/cancel (`admin_cancel_order`): identical
to the self-service cancel except for the missing ownership check. -/
def admin_cancel_order (st : St) (orderId : Nat) (now : Nat) :
    St × Except ApiErr (Option RefundInfo) :=
  match order_get_by_id st orderId with
  | none => (st, .error ⟨404, "Commande introuvable"⟩)
  | some order =>
    if !(order.status = OrderStatus.CREE ∨ order.status = OrderStatus.VALIDEE ∨
         order.status = OrderStatus.PAYEE : Bool) then
      (st, .error ⟨400, "Cette commande ne peut pas être annulée"⟩)
    else
      cancel_order_effects st orderId order now

/-- POST /admin/orders/{order_id}/validate (`admin_validate_order`):
`CREE`/`PAYEE` guard, then the transition to `VALIDEE` with its
timestamp. -/
def admin_validate_order (st : St) (orderId : Nat) (now : Nat) :
    St × Except ApiErr Unit :=
  match order_get_by_id st orderId with
  | none => (st, .error ⟨404, "Commande introuvable"⟩)
  | some order =>
    if !(order.status = OrderStatus.CREE ∨ order.status = OrderStatus.PAYEE : Bool) then
      (st, .error ⟨400, "Commande déjà traitée"⟩)
    else
      let order' := { order with status := OrderStatus.VALIDEE, validatedAt := some now }
      let (st1, _) := order_repo_update st order'
      (st1, .ok ())

/-- The request body of the ship endpoint (`DeliveryIn`). -/
structure DeliveryIn where
  transporteur : String
  trackingNumber : Option String
  deliveryStatus : String
deriving DecidableEq, Repr

/-- POST /admin/orders/{order_id}/ship (`admin_ship_order`):
`VALIDEE`/`PAYEE` guard, insertion of the Delivery row (address copied from
the user of the order), then the transition to `EXPEDIEE`. -/
def admin_ship_order (st : St) (orderId : Nat) (d : DeliveryIn) (now : Nat) :
    St × Except ApiErr Unit :=
  match order_get_by_id st orderId with
  | none => (st, .error ⟨404, "Commande introuvable"⟩)
  | some order =>
    if !(order.status = OrderStatus.VALIDEE ∨ order.status = OrderStatus.PAYEE : Bool) then
      (st, .error ⟨400, "Commande non expédiable"⟩)
    else
      let address := ((user_get_by_id st order.userId).map (fun u => u.address)).getD ""
      let delivery : Delivery :=
        { orderId := order.id, transporteur := d.transporteur,
          trackingNumber := d.trackingNumber, address := address,
          deliveryStatus := d.deliveryStatus }
      let st1 := { st with deliveries := st.deliveries ++ [delivery] }
      let order' := { order with status := OrderStatus.EXPEDIEE, shippedAt := some now }
      let (st2, _) := order_repo_update st1 order'
      (st2, .ok ())

/-- POST /admin/orders/{order_id}/mark-delivered (`admin_mark_delivered`):
`EXPEDIEE` guard, transition to `LIVREE`, then the status string of the delivery sub-resource flipped to "LIVREE" when one exists. -/
def admin_mark_delivered (st : St) (orderId : Nat) (now : Nat) :
    St × Except ApiErr Unit :=
  match order_get_by_id st orderId with
  | none => (st, .error ⟨404, "Commande introuvable"⟩)
  | some order =>
    if order.status ≠ OrderStatus.EXPEDIEE then
      (st, .error ⟨400, "Commande non expédiée"⟩)
    else
      let order' := { order with status := OrderStatus.LIVREE, deliveredAt := some now }
      let (st1, _) := order_repo_update st order'
      let st2 :=
        if (st1.deliveries.find? (fun dv => dv.orderId == order.id)).isSome then
          { st1 with deliveries :=
              st1.deliveries.map (fun dv =>
                if dv.orderId == order.id then { dv with deliveryStatus := "LIVREE" } else dv) }
        else st1
      (st2, .ok ())

/-- POST /admin/orders/{order_id}/refund (`admin_refund_order`):
`PAYEE`/`EXPEDIEE`/`LIVREE` guard, a payment must exist, per-line stock
restoration, transition to `REMBOURSEE`, then the REFUNDED flip of the
payments of the order. -/
def admin_refund_order (st : St) (orderId : Nat) (now : Nat) :
    St × Except ApiErr Unit :=
  match order_get_by_id st orderId with
  | none => (st, .error ⟨404, "Commande introuvable"⟩)
  | some order =>
    if !(order.status = OrderStatus.PAYEE ∨ order.status = OrderStatus.EXPEDIEE ∨
         order.status = OrderStatus.LIVREE : Bool) then
      (st, .error ⟨400, "Commande non remboursable"⟩)
    else if payments_get_by_order_id st orderId = [] then
      (st, .error ⟨400, "Aucun paiement trouvé"⟩)
    else
      let st1 := restore_stock_for_items st (order_items_of st orderId)
      let order' := { order with status := OrderStatus.REMBOURSEE, refundedAt := some now }
      let (st2, _) := order_repo_update st1 order'
      let st3 :=
        { st2 with payments :=
            st2.payments.map (fun p =>
              if p.orderId == orderId then { p with status := "REFUNDED" } else p) }
      (st3, .ok ())

/-- One returned cart line of GET /cart. -/
structure CartItemOut where
  productId : Nat
  quantity : Int
deriving DecidableEq, Repr

/-- The response body of GET /cart. -/
structure CartOut where
  userId : Nat
  items : List CartItemOut
  totalCents : Int
deriving DecidableEq, Repr

/-- A cart line survives the view when its product still exists and is
active. -/
def cartLineSurvives (st : St) (it : CartItem) : Bool :=
  match product_get_by_id st it.productId with
  | some product => product.active
  | none => false

/-- GET /cart (`view_cart`): returns the surviving lines and a total of
`quantity * 1000` per line (the fixed placeholder unit price of the source),
deleting the lines whose product is inactive or gone. -/
def view_cart (st : St) (uid : Nat) : St × CartOut :=
  match cart_get_by_user_id st uid with
  | none => (st, { userId := uid, items := [], totalCents := 0 })
  | some c =>
    let lines := st.cartItems.filter (fun it => it.cartId == c.id)
    let surviving := lines.filter (cartLineSurvives st)
    let items := surviving.map (fun it => CartItemOut.mk it.productId it.quantity)
    let totalCents := surviving.foldl (fun acc it => acc + it.quantity * 1000) 0
    let st' :=
      { st with cartItems :=
          st.cartItems.filter (fun it => !(it.cartId == c.id && !(cartLineSurvives st it))) }
    (st', { userId := uid, items := items, totalCents := totalCents })

/-! ### Authentication service (services/auth_service.py)

The cryptographic primitives live in third-party libraries (`bcrypt`,
`hashlib`); the model is parametrized over them: `hashpw`/`checkpw` stand
for `bcrypt.hashpw`/`bcrypt.checkpw` (with a fixed salt draw), `sha256hex`
for `hashlib.sha256(...).hexdigest()`. -/

/-- `AuthService.hash_password`, primary (bcrypt) path. -/
def hash_password_bcrypt (hashpw : String → String) (password : String) : String :=
  hashpw password

/-- `AuthService.hash_password`, SHA-256 fallback path: an unsalted digest
behind the literal "sha256::" marker. -/
def hash_password_sha256 (sha256hex : String → String) (password : String) : String :=
  "sha256::" ++ sha256hex password

/-- The expected digest recovered from a marked fallback hash:
`hashed_password.split` on the double-colon marker.  For a string starting with
"sha256::" the first occurrence of "::" sits at index 6, so this is
everything from index 8 on. -/
def shaExpected (hashed : String) : String :=
  String.mk (hashed.toList.drop 8)

/-- `AuthService.verify_password`: dispatch on the "sha256::" marker —
bcrypt check for an unmarked hash, digest comparison for a marked one. -/
def verify_password (checkpw : String → String → Bool)
    (sha256hex : String → String) (password hashed : String) : Bool :=
  if !(strStartsWith hashed "sha256::") then
    checkpw password hashed
  else
    sha256hex password == shaExpected hashed

/-- `AuthService.register`: idempotent when the email exists and the given
password verifies against the stored hash; "Email déjà utilisé." when it
does not; otherwise hashes the password and creates a new non-admin user. -/
def register (checkpw : String → String → Bool) (sha256hex : String → String)
    (hashPassword : String → String) (st : St)
    (email password firstName lastName address : String) :
    St × Except String DUser :=
  match user_get_by_email st email with
  | some existingUser =>
    if verify_password checkpw sha256hex password existingUser.passwordHash then
      (st, .ok existingUser)
    else
      (st, .error "Email déjà utilisé.")
  | none =>
    let user : DUser :=
      { id := st.nextId, email := email, passwordHash := hashPassword password,
        firstName := firstName, lastName := lastName, address := address,
        isAdmin := false }
    ({ st with users := st.users ++ [user], nextId := st.nextId + 1 }, .ok user)

/-! ### PaymentService (services/payment_service.py) -/

/-- The `payment_data` dictionary taken by
`PaymentService.process_payment`. -/
structure ProcPayIn where
  cardNumber : String
  expMonth : Int
  expYear : Int
  cvc : String
  postalCode : Option String
  phone : Option String
  streetNumber : Option String
  streetName : Option String
deriving DecidableEq, Repr

/-- `PaymentService.process_payment`: rejects orders not in
`CREE`/`VALIDEE`, charges the gateway (simulation mode) for the computed
order total, records a Payment row regardless of outcome — with status
"PAID" on success and "FAILED" otherwise — and fails after recording when
the charge was refused. -/
def process_payment (st : St) (orderId : Nat) (pd : ProcPayIn) (hex1 hex2 : String) :
    St × Except String Payment :=
  match order_get_by_id st orderId with
  | none => (st, .error "Commande introuvable")
  | some order =>
    if !(order.status = OrderStatus.CREE ∨ order.status = OrderStatus.VALIDEE : Bool) then
      (st, .error "Commande déjà payée ou traitée")
    else
      let amount := order_total_cents st orderId
      let result := simulate_payment pd.cardNumber hex1 hex2
      let paymentData : PaymentData :=
        { orderId := orderId, amountCents := amount,
          status := if result.success then "PAID" else "FAILED",
          paymentMethod := "CARD",
          cardLast4 :=
            if pd.cardNumber.toList.length ≥ 4 then some (strTakeRight pd.cardNumber 4) else none,
          postalCode := pd.postalCode, phone := pd.phone,
          streetNumber := pd.streetNumber, streetName := pd.streetName,
          chargeId := if result.success then result.chargeId else none }
      let (st1, payment) := payment_repo_create st paymentData
      if !result.success then (st1, .error "Paiement refusé")
      else (st1, .ok payment)

/-- `PaymentService.process_refund`: rejects orders not in
`PAYEE`/`ANNULEE`, requires the original payment of the order to carry a charge
id, refunds via the gateway, and records a negative-amount REFUNDED Payment
row.  `amount_cents or order.total_cents()` makes an absent or zero amount
fall back to the order total. -/
def process_refund (st : St) (orderId : Nat) (amountCents : Option Int) (hex1 : String) :
    St × Except String Payment :=
  match order_get_by_id st orderId with
  | none => (st, .error "Commande introuvable")
  | some order =>
    if !(order.status = OrderStatus.PAYEE ∨ order.status = OrderStatus.ANNULEE : Bool) then
      (st, .error "Remboursement non autorisé au statut actuel")
    else
      let amount :=
        match amountCents with
        | some a => if a ≠ 0 then a else order_total_cents st orderId
        | none => order_total_cents st orderId
      let initialPayment := order.paymentId.bind (payment_get_by_id st)
      match initialPayment with
      | none => (st, .error "Aucun paiement initial trouvé")
      | some initial =>
        match initial.chargeId with
        | none => (st, .error "Aucun charge_id trouvé dans le paiement initial. Impossible de rembourser.")
        | some chargeId =>
          let refundResult := simulate_refund chargeId hex1
          if !refundResult.success then
            (st, .error "Remboursement échoué")
          else
            let refundData : PaymentData :=
              { orderId := orderId, amountCents := -amount, status := "REFUNDED",
                paymentMethod := "REFUND", cardLast4 := none, postalCode := none,
                phone := none, streetNumber := none, streetName := none,
                chargeId := some chargeId }
            let (st1, refund) := payment_repo_create st refundData
            (st1, .ok refund)

/-! ### The order-status-mutating surface of the HTTP API

`order.status` is assigned in exactly seven endpoints of api.py
(`pay_order`, `cancel_order`, `admin_cancel_order`, `admin_validate_order`,
`admin_ship_order`, `admin_mark_delivered`, `admin_refund_order`); every
other endpoint (checkout included, which only creates fresh `CREE` orders
and rewrites order lines) leaves the status column of existing orders
untouched.  `ApiAction` enumerates those seven endpoints. -/
inductive ApiAction where
  | pay (orderId uid : Nat) (pd : PayIn) (nowMonth nowYear threshold : Int) (hex1 hex2 : String)
  | cancel (orderId uid : Nat) (now : Nat)
  | adminCancel (orderId : Nat) (now : Nat)
  | adminValidate (orderId : Nat) (now : Nat)
  | adminShip (orderId : Nat) (d : DeliveryIn) (now : Nat)
  | adminMarkDelivered (orderId : Nat) (now : Nat)
  | adminRefund (orderId : Nat) (now : Nat)

/-- The state transformation of one status-mutating endpoint call. -/
def apiStep (st : St) : ApiAction → St
  | .pay orderId uid pd nowMonth nowYear threshold hex1 hex2 =>
    (pay_order st orderId uid pd nowMonth nowYear threshold hex1 hex2).1
  | .cancel orderId uid now => (cancel_order st orderId uid now).1
  | .adminCancel orderId now => (admin_cancel_order st orderId now).1
  | .adminValidate orderId now => (admin_validate_order st orderId now).1
  | .adminShip orderId d now => (admin_ship_order st orderId d now).1
  | .adminMarkDelivered orderId now => (admin_mark_delivered st orderId now).1
  | .adminRefund orderId now => (admin_refund_order st orderId now).1

/-! ### Concrete witness data -/

/-- A sample order row. -/
def mkOrder (i uid : Nat) (status : OrderStatus) : Order :=
  { id := i, userId := uid, status := status, createdAt := 0,
    validatedAt := none, paidAt := none, shippedAt := none,
    deliveredAt := none, cancelledAt := none, refundedAt := none,
    paymentId := none }

/-- A sample payment row. -/
def mkPayment (i oid : Nat) (amount : Int) (status : String) : Payment :=
  { id := i, orderId := oid, amountCents := amount, status := status,
    paymentMethod := "CARD", cardLast4 := none, postalCode := none,
    phone := none, streetNumber := none, streetName := none,
    chargeId := some "ch_sim_0123456789abcdef01234567" }

/-- A delivered (LIVREE) order with one recorded payment: the input on which
the admin refund endpoint moves a LIVREE order to REMBOURSEE. -/
def stLivree : St :=
  { St.empty with
    orders := [mkOrder 1 10 OrderStatus.LIVREE],
    payments := [mkPayment 2 1 500 "SUCCEEDED"],
    nextId := 3 }

/-- A refunded (REMBOURSEE) order with one payment, for exercising the
terminal-status theorem. -/
def stRemboursee : St :=
  { St.empty with
    orders := [mkOrder 1 10 OrderStatus.REMBOURSEE],
    payments := [mkPayment 2 1 500 "REFUNDED"],
    nextId := 3 }

/-- The extended payment-status vocabulary actually written by the code:
the spec vocabulary {PENDING, SUCCEEDED, FAILED, REFUNDED} plus the "PAID"
literal of `PaymentService.process_payment`. -/
def paymentStatusVocab (p : Payment) : Prop :=
  p.status = "PENDING" ∨ p.status = "SUCCEEDED" ∨ p.status = "PAID" ∨
  p.status = "FAILED" ∨ p.status = "REFUNDED"

instance (p : Payment) : Decidable (paymentStatusVocab p) := by
  unfold paymentStatusVocab
  infer_instance

/-- A CREE order of two units at 1000 cents, the input on which
`PaymentService.process_payment` records a "PAID" Payment row. -/
def stProc : St :=
  { St.empty with
    orders := [mkOrder 1 10 OrderStatus.CREE],
    orderItems := [{ orderId := 1, productId := 7, name := "X",
                     unitPriceCents := 1000, quantity := 2 }],
    nextId := 3 }

/-- The payment data fed to `PaymentService.process_payment` in the
counterexample (a Stripe test card that the simulation accepts). -/
def procPd : ProcPayIn :=
  { cardNumber := "4242424242424242", expMonth := 12, expYear := 2030,
    cvc := "123", postalCode := none, phone := none, streetNumber := none,
    streetName := none }

/-- Generic form shared by the two per-line product loops (stock decrement
on payment, stock restoration on cancel/refund); `g` is the per-line
product update. -/
def stock_fold (g : Product → OrderItem → Product) (st : St) (items : List OrderItem) : St :=
  items.foldl
    (fun s item =>
      match product_get_by_id s item.productId with
      | none => s
      | some product => product_update s (g product item))
    st

/-- The per-line product update of the payment-success stock decrement. -/
def decrementProduct (threshold : Int) (product : Product) (item : OrderItem) : Product :=
  { product with
    stockQty := max 0 (product.stockQty - item.quantity),
    active := if max 0 (product.stockQty - item.quantity) ≤ threshold then false else product.active }

/-- The per-line product update of the cancel/refund stock restoration. -/
def restoreProduct (product : Product) (item : OrderItem) : Product :=
  if !product.active && product.stockQty + item.quantity > 0 then
    { product with stockQty := product.stockQty + item.quantity, active := true }
  else
    { product with stockQty := product.stockQty + item.quantity }

/-- A PAYEE order of one line (2 units of product 5, stock 3) with one
SUCCEEDED payment, owned by user 10 — input of the cancellation witness. -/
def stCancel : St :=
  { St.empty with
    products := [{ id := 5, name := "P", priceCents := 1000, stockQty := 3, active := true }],
    orders := [mkOrder 1 10 OrderStatus.PAYEE],
    orderItems := [{ orderId := 1, productId := 5, name := "P",
                     unitPriceCents := 1000, quantity := 2 }],
    payments := [mkPayment 2 1 2000 "SUCCEEDED"],
    nextId := 3 }

/-- A CREE order owned by user 10 with one line (2 units of product 5,
stock 10, 700 cents each), the buyer having a cart with one stale line —
the input of the payment-success witness. -/
def stPay : St :=
  { St.empty with
    products := [{ id := 5, name := "P", priceCents := 700, stockQty := 10, active := true }],
    carts := [{ id := 3, userId := 10 }],
    cartItems := [{ cartId := 3, productId := 5, quantity := 1 }],
    orders := [mkOrder 1 10 OrderStatus.CREE],
    orderItems := [{ orderId := 1, productId := 5, name := "P",
                     unitPriceCents := 700, quantity := 2 }],
    nextId := 20 }

/-- A fully valid card payment request (a Stripe test card the simulation
accepts, all optional fields absent). -/
def pdPay : PayIn :=
  { cardNumber := "4242424242424242", cvc := "123", expMonth := 12, expYear := 2030,
    postalCode := none, phone := none, streetNumber := none, streetName := none }

/-! ## Theorems -/

theorem replaceBy_find?_same (p : α → Bool) (y : α) (l : List α) (hy : p y = true) :
    (replaceBy p y l).find? p = (l.find? p).map (fun _ => y) := by
  induction l with
  | nil => rfl
  | cons a l ih =>
    cases hpa : p a with
    | true =>
      simp only [replaceBy, List.map_cons, hpa, if_true]
      rw [List.find?_cons_of_pos _ hy, List.find?_cons_of_pos _ hpa]
      rfl
    | false =>
      simp only [replaceBy, List.map_cons, hpa, Bool.false_eq_true, if_false]
      rw [List.find?_cons_of_neg _ (by simp [hpa]), List.find?_cons_of_neg _ (by simp [hpa])]
      exact ih

theorem replaceBy_find?_other (p q : α → Bool) (y : α) (l : List α)
    (hpq : ∀ x, q x = true → p x = false) (hy : q y = false) :
    (replaceBy p y l).find? q = l.find? q := by
  induction l with
  | nil => rfl
  | cons a l ih =>
    cases hpa : p a with
    | true =>
      have hqa : q a = false := by
        cases hqa : q a with
        | true => rw [hpq a hqa] at hpa; cases hpa
        | false => rfl
      simp only [replaceBy, List.map_cons, hpa, if_true]
      rw [List.find?_cons_of_neg _ (by simp [hy]), List.find?_cons_of_neg _ (by simp [hqa])]
      exact ih
    | false =>
      simp only [replaceBy, List.map_cons, hpa, Bool.false_eq_true, if_false]
      cases hqa : q a with
      | true =>
        rw [List.find?_cons_of_pos _ hqa, List.find?_cons_of_pos _ hqa]
      | false =>
        rw [List.find?_cons_of_neg _ (by simp [hqa]), List.find?_cons_of_neg _ (by simp [hqa])]
        exact ih

theorem mem_replaceBy (p : α → Bool) (y : α) (l : List α) (x : α)
    (hx : x ∈ replaceBy p y l) : x = y ∨ (x ∈ l ∧ p x = false) := by
  induction l with
  | nil => cases hx
  | cons a l ih =>
    simp only [replaceBy, List.map_cons, List.mem_cons] at hx
    rcases hx with hx | hx
    · cases hpa : p a with
      | true => left; simpa [hpa] using hx
      | false =>
        right
        rw [hpa] at hx
        simp only [Bool.false_eq_true, if_false] at hx
        exact ⟨by simp [hx], by rw [hx]; exact hpa⟩
    · rcases ih hx with hh | ⟨hmem, hp⟩
      · exact Or.inl hh
      · exact Or.inr ⟨List.mem_cons_of_mem _ hmem, hp⟩

theorem replaceBy_filter_not (p : α → Bool) (y : α) (l : List α) (hy : p y = true) :
    (replaceBy p y l).filter (fun x => !(p x)) = l.filter (fun x => !(p x)) := by
  induction l with
  | nil => rfl
  | cons a l ih =>
    cases hpa : p a with
    | true =>
      simp only [replaceBy, List.map_cons, hpa, if_true, List.filter_cons, hy,
        Bool.not_true, Bool.false_eq_true, if_false]
      exact ih
    | false =>
      simp only [replaceBy, List.map_cons, hpa, Bool.false_eq_true, if_false,
        List.filter_cons, Bool.not_false, if_true]
      exact congrArg (List.cons a) ih

theorem order_repo_update_present (st : St) (o row : Order)
    (h : order_get_by_id st o.id = some row) :
    order_repo_update st o =
      ({ st with orders := replaceBy (fun x => x.id == o.id) o st.orders }, o) := by
  have h' : List.find? (fun x => x.id == o.id) st.orders = some row := h
  have hb : ((o.id == o.id) : Bool) = true := by simp
  have hpred := List.find?_some h'
  have hany : st.orders.any (fun x => x.id == o.id) = true :=
    List.any_eq_true.mpr ⟨row, List.mem_of_find?_eq_some h', hpred⟩
  have hrepl :
      (replaceBy (fun x => x.id == o.id) o st.orders).find? (fun x => x.id == o.id) = some o := by
    rw [replaceBy_find?_same (fun x => x.id == o.id) o st.orders (by simp), h']
    rfl
  unfold order_repo_update order_get_by_id
  rw [h']
  by_cases hc : row.createdAt = o.createdAt
  · simp [hc, hany, hrepl]
  · simp [hc, hany, hrepl]

theorem order_repo_update_absent (st : St) (o : Order)
    (h : order_get_by_id st o.id = none) :
    order_repo_update st o = ({ st with orders := st.orders ++ [o] }, o) := by
  have h' : List.find? (fun x => x.id == o.id) st.orders = none := h
  have hany : st.orders.any (fun x => x.id == o.id) = false := by
    rw [Bool.eq_false_iff]
    intro hc
    rcases List.any_eq_true.mp hc with ⟨x, hmem, hx⟩
    exact List.find?_eq_none.mp h' x hmem hx
  have happ : (st.orders ++ [o]).find? (fun x => x.id == o.id) = some o := by
    rw [List.find?_append, h']
    simp
  unfold order_repo_update order_get_by_id
  rw [h']
  simp [hany, happ]

/-- C7: for every order and every call to `OrderRepository.update`, the
created_at of the returned order equals its value at entry, every table row
of that order carries that same created_at after the call, and the rows of
all other orders are untouched. -/
theorem orderRepoUpdate_createdAt_and_frame (st : St) (order : Order) :
    ((order_repo_update st order).2.createdAt = order.createdAt)
    ∧ (∀ row' ∈ (order_repo_update st order).1.orders,
        row'.id = order.id → row'.createdAt = order.createdAt)
    ∧ ((order_repo_update st order).1.orders.filter (fun x => !(x.id == order.id))
        = st.orders.filter (fun x => !(x.id == order.id))) := by
  cases hfind : order_get_by_id st order.id with
  | some row =>
    rw [order_repo_update_present st order row hfind]
    refine ⟨rfl, ?_, ?_⟩
    · intro row' hmem hid
      rcases mem_replaceBy _ _ _ _ hmem with hh | ⟨_, hp⟩
      · rw [hh]
      · rw [hid] at hp
        simp at hp
    · exact replaceBy_filter_not (fun x => x.id == order.id) order st.orders (by simp)
  | none =>
    rw [order_repo_update_absent st order hfind]
    refine ⟨rfl, ?_, ?_⟩
    · intro row' hmem hid
      rcases List.mem_append.mp hmem with hh | hh
      · exact absurd (by simp [hid] : ((fun x => x.id == order.id) row' : Bool) = true)
          (List.find?_eq_none.mp hfind row' hh)
      · rw [List.mem_singleton.mp hh]
    · rw [List.filter_append]
      simp

theorem decrement_stock_products_only (items : List OrderItem) (st : St) (threshold : Int) :
    ∃ ps, decrement_stock_for_items st items threshold = { st with products := ps } := by
  induction items generalizing st with
  | nil => exact ⟨st.products, rfl⟩
  | cons i items ih =>
    simp only [decrement_stock_for_items, List.foldl_cons] at ih ⊢
    cases hp : product_get_by_id st i.productId with
    | none => exact ih st
    | some product => exact ih _

theorem restore_stock_products_only (items : List OrderItem) (st : St) :
    ∃ ps, restore_stock_for_items st items = { st with products := ps } := by
  induction items generalizing st with
  | nil => exact ⟨st.products, rfl⟩
  | cons i items ih =>
    simp only [restore_stock_for_items, List.foldl_cons] at ih ⊢
    cases hp : product_get_by_id st i.productId with
    | none => exact ih st
    | some product => exact ih _

theorem clear_cart_cartItems_only (st : St) (uid : Nat) :
    ∃ ci, (clear_cart st uid).1 = { st with cartItems := ci } := by
  unfold clear_cart
  cases cart_get_by_user_id st uid with
  | none => exact ⟨st.cartItems, rfl⟩
  | some c => exact ⟨_, rfl⟩

theorem order_get_by_id_congr (st st2 : St) (h : st2.orders = st.orders) (i : Nat) :
    order_get_by_id st2 i = order_get_by_id st i := by
  unfold order_get_by_id
  rw [h]

theorem pay_success_orders (st : St) (d : PaymentData) (items : List OrderItem)
    (thr : Int) (uid : Nat) (o' row : Order)
    (hfind : order_get_by_id st o'.id = some row) :
    (order_repo_update
        ((clear_cart (decrement_stock_for_items (payment_repo_create st d).1 items thr) uid).1)
        o').1.orders
      = replaceBy (fun x => x.id == o'.id) o' st.orders := by
  rcases decrement_stock_products_only items (payment_repo_create st d).1 thr with ⟨ps, hps⟩
  rcases clear_cart_cartItems_only (decrement_stock_for_items (payment_repo_create st d).1 items thr) uid with ⟨ci, hci⟩
  have horders :
      ((clear_cart (decrement_stock_for_items (payment_repo_create st d).1 items thr) uid).1).orders
        = st.orders := by
    rw [hci, hps]
    rfl
  have hfind3 :
      order_get_by_id ((clear_cart (decrement_stock_for_items (payment_repo_create st d).1 items thr) uid).1) o'.id
        = some row := by
    rw [order_get_by_id_congr st _ horders]
    exact hfind
  rw [order_repo_update_present _ o' row hfind3]
  exact congrArg (replaceBy (fun x => x.id == o'.id) o') horders

theorem pay_order_charge_orders_shape (st : St) (tid uid : Nat) (o2 : Order) (pd : PayIn)
    (thr : Int) (h1 h2 : String) (row : Order)
    (hfind : order_get_by_id st o2.id = some row) :
    (pay_order_charge st tid uid o2 pd thr h1 h2).1.orders = st.orders ∨
    (pay_order_charge st tid uid o2 pd thr h1 h2).1.orders
      = replaceBy (fun x => x.id == o2.id)
          { o2 with status := OrderStatus.PAYEE, paymentId := some st.nextId } st.orders := by
  unfold pay_order_charge
  dsimp only
  by_cases hgw : (simulate_payment (sanitize_numeric pd.cardNumber) h1 h2).success = true
  · rw [if_neg (by simp [hgw])]
    exact Or.inr (pay_success_orders st _ _ thr uid _ row hfind)
  · rw [if_pos (by simp [Bool.not_eq_true] at hgw ⊢; exact hgw)]
    exact Or.inl rfl

theorem pay_order_orders_shape (st : St) (tid uid : Nat) (pd : PayIn)
    (nM nY thr : Int) (h1 h2 : String) :
    (pay_order st tid uid pd nM nY thr h1 h2).1.orders = st.orders ∨
    ∃ o2 o', order_get_by_id st tid = some o2 ∧ o2.status = OrderStatus.CREE ∧
      o'.id = o2.id ∧ o'.paidAt = o2.paidAt ∧
      (pay_order st tid uid pd nM nY thr h1 h2).1.orders
        = replaceBy (fun x => x.id == o2.id) o' st.orders := by
  unfold pay_order
  cases hfind : order_get_by_id st tid with
  | none => exact Or.inl rfl
  | some o2 =>
    have hid : o2.id = tid := by
      simpa using List.find?_some (show List.find? (fun x => x.id == tid) st.orders = some o2 from hfind)
    have hfind' : order_get_by_id st o2.id = some o2 := by
      rw [hid]; exact hfind
    dsimp only
    split_ifs with hu hs
    · exact Or.inl rfl
    · exact Or.inl rfl
    · cases hv : pay_validations_err pd nM nY with
      | some e => exact Or.inl rfl
      | none =>
        rcases pay_order_charge_orders_shape st tid uid o2 pd thr h1 h2 o2 hfind' with hsh | hsh
        · exact Or.inl hsh
        · exact Or.inr ⟨o2, { o2 with status := OrderStatus.PAYEE, paymentId := some st.nextId },
            rfl, not_not.mp hs, rfl, rfl, hsh⟩

theorem update_after_restore_orders (st : St) (items : List OrderItem) (o' row : Order)
    (hfind : order_get_by_id st o'.id = some row) :
    (order_repo_update (restore_stock_for_items st items) o').1.orders
      = replaceBy (fun x => x.id == o'.id) o' st.orders := by
  rcases restore_stock_products_only items st with ⟨ps, hps⟩
  have horders : (restore_stock_for_items st items).orders = st.orders := by
    rw [hps]
  have hfind2 : order_get_by_id (restore_stock_for_items st items) o'.id = some row := by
    rw [order_get_by_id_congr st _ horders]
    exact hfind
  rw [order_repo_update_present _ o' row hfind2]
  exact congrArg (replaceBy (fun x => x.id == o'.id) o') horders

theorem cancel_effects_orders_shape (st : St) (tid : Nat) (o2 : Order) (now : Nat) (row : Order)
    (hfind : order_get_by_id st o2.id = some row) :
    ∃ o', o'.id = o2.id ∧ o'.paidAt = o2.paidAt ∧
      (cancel_order_effects st tid o2 now).1.orders
        = replaceBy (fun x => x.id == o2.id) o' st.orders := by
  unfold cancel_order_effects
  dsimp only
  split_ifs with h1 h2 h2
  · -- paid, payments present, order goes to REMBOURSEE
    have hfindF : order_get_by_id
        { st with payments := st.payments.map (fun p =>
            if p.orderId == tid then { p with status := "REFUNDED" } else p) } o2.id = some row := hfind
    refine ⟨{ o2 with
        status := OrderStatus.REMBOURSEE
        refundedAt := some now
        cancelledAt := some now }, rfl, rfl, ?_⟩
    exact update_after_restore_orders _ _ _ row hfindF
  · exact absurd h1.1 h2
  · -- not (paid with payments), but paid: REMBOURSEE without payment flip
    refine ⟨{ o2 with
        status := OrderStatus.REMBOURSEE
        refundedAt := some now
        cancelledAt := some now }, rfl, rfl, ?_⟩
    exact update_after_restore_orders _ _ _ row hfind
  · -- never paid: ANNULEE
    refine ⟨{ o2 with status := OrderStatus.ANNULEE, cancelledAt := some now }, rfl, rfl, ?_⟩
    exact update_after_restore_orders _ _ _ row hfind

theorem cancel_order_orders_shape (st : St) (tid uid : Nat) (now : Nat) :
    (cancel_order st tid uid now).1.orders = st.orders ∨
    ∃ o2 o', order_get_by_id st tid = some o2 ∧
      (o2.status = OrderStatus.CREE ∨ o2.status = OrderStatus.VALIDEE ∨
        o2.status = OrderStatus.PAYEE) ∧
      o'.id = o2.id ∧ o'.paidAt = o2.paidAt ∧
      (cancel_order st tid uid now).1.orders
        = replaceBy (fun x => x.id == o2.id) o' st.orders := by
  unfold cancel_order
  cases hfind : order_get_by_id st tid with
  | none => exact Or.inl rfl
  | some o2 =>
    have hid : o2.id = tid := by
      simpa using List.find?_some (show List.find? (fun x => x.id == tid) st.orders = some o2 from hfind)
    have hfind' : order_get_by_id st o2.id = some o2 := by
      rw [hid]; exact hfind
    dsimp only
    split_ifs with hu hs
    · exact Or.inl rfl
    · exact Or.inl rfl
    · rcases cancel_effects_orders_shape st tid o2 now o2 hfind' with ⟨o', ha, hb, hc⟩
      refine Or.inr ⟨o2, o', rfl, ?_, ha, hb, hc⟩
      simp only [Bool.not_eq_true', Bool.not_eq_false', Bool.not_eq_true, Bool.not_eq_false, decide_eq_true_eq, decide_eq_false_iff_not, not_not] at hs
      tauto

theorem admin_cancel_order_orders_shape (st : St) (tid : Nat) (now : Nat) :
    (admin_cancel_order st tid now).1.orders = st.orders ∨
    ∃ o2 o', order_get_by_id st tid = some o2 ∧
      (o2.status = OrderStatus.CREE ∨ o2.status = OrderStatus.VALIDEE ∨
        o2.status = OrderStatus.PAYEE) ∧
      o'.id = o2.id ∧ o'.paidAt = o2.paidAt ∧
      (admin_cancel_order st tid now).1.orders
        = replaceBy (fun x => x.id == o2.id) o' st.orders := by
  unfold admin_cancel_order
  cases hfind : order_get_by_id st tid with
  | none => exact Or.inl rfl
  | some o2 =>
    have hid : o2.id = tid := by
      simpa using List.find?_some (show List.find? (fun x => x.id == tid) st.orders = some o2 from hfind)
    have hfind' : order_get_by_id st o2.id = some o2 := by
      rw [hid]; exact hfind
    dsimp only
    split_ifs with hs
    · exact Or.inl rfl
    · rcases cancel_effects_orders_shape st tid o2 now o2 hfind' with ⟨o', ha, hb, hc⟩
      refine Or.inr ⟨o2, o', rfl, ?_, ha, hb, hc⟩
      simp only [Bool.not_eq_true', Bool.not_eq_false', Bool.not_eq_true, Bool.not_eq_false, decide_eq_true_eq, decide_eq_false_iff_not, not_not] at hs
      tauto

theorem admin_validate_order_orders_shape (st : St) (tid : Nat) (now : Nat) :
    (admin_validate_order st tid now).1.orders = st.orders ∨
    ∃ o2 o', order_get_by_id st tid = some o2 ∧
      (o2.status = OrderStatus.CREE ∨ o2.status = OrderStatus.PAYEE) ∧
      o'.id = o2.id ∧ o'.paidAt = o2.paidAt ∧
      (admin_validate_order st tid now).1.orders
        = replaceBy (fun x => x.id == o2.id) o' st.orders := by
  unfold admin_validate_order
  cases hfind : order_get_by_id st tid with
  | none => exact Or.inl rfl
  | some o2 =>
    have hid : o2.id = tid := by
      simpa using List.find?_some (show List.find? (fun x => x.id == tid) st.orders = some o2 from hfind)
    have hfind' : order_get_by_id st o2.id = some o2 := by
      rw [hid]; exact hfind
    dsimp only
    split_ifs with hs
    · exact Or.inl rfl
    · refine Or.inr ⟨o2, { o2 with status := OrderStatus.VALIDEE, validatedAt := some now },
        rfl, by simp only [Bool.not_eq_true', Bool.not_eq_false', Bool.not_eq_true, Bool.not_eq_false, decide_eq_true_eq, decide_eq_false_iff_not, not_not] at hs; tauto, rfl, rfl, ?_⟩
      rw [order_repo_update_present st
        { o2 with status := OrderStatus.VALIDEE, validatedAt := some now } o2 hfind']

theorem admin_ship_order_orders_shape (st : St) (tid : Nat) (d : DeliveryIn) (now : Nat) :
    (admin_ship_order st tid d now).1.orders = st.orders ∨
    ∃ o2 o', order_get_by_id st tid = some o2 ∧
      (o2.status = OrderStatus.VALIDEE ∨ o2.status = OrderStatus.PAYEE) ∧
      o'.id = o2.id ∧ o'.paidAt = o2.paidAt ∧
      (admin_ship_order st tid d now).1.orders
        = replaceBy (fun x => x.id == o2.id) o' st.orders := by
  unfold admin_ship_order
  cases hfind : order_get_by_id st tid with
  | none => exact Or.inl rfl
  | some o2 =>
    have hid : o2.id = tid := by
      simpa using List.find?_some (show List.find? (fun x => x.id == tid) st.orders = some o2 from hfind)
    dsimp only
    split_ifs with hs
    · exact Or.inl rfl
    · refine Or.inr ⟨o2, { o2 with status := OrderStatus.EXPEDIEE, shippedAt := some now },
        rfl, by simp only [Bool.not_eq_true', Bool.not_eq_false', Bool.not_eq_true, Bool.not_eq_false, decide_eq_true_eq, decide_eq_false_iff_not, not_not] at hs; tauto, rfl, rfl, ?_⟩
      have hfindD : order_get_by_id
          { st with deliveries := st.deliveries ++
              [{ orderId := o2.id, transporteur := d.transporteur,
                 trackingNumber := d.trackingNumber,
                 address := ((user_get_by_id st o2.userId).map (fun u => u.address)).getD "",
                 deliveryStatus := d.deliveryStatus }] } o2.id = some o2 := by
        rw [hid]
        exact hfind
      rw [order_repo_update_present _
        { o2 with status := OrderStatus.EXPEDIEE, shippedAt := some now } o2 hfindD]

theorem admin_mark_delivered_orders_shape (st : St) (tid : Nat) (now : Nat) :
    (admin_mark_delivered st tid now).1.orders = st.orders ∨
    ∃ o2 o', order_get_by_id st tid = some o2 ∧
      o2.status = OrderStatus.EXPEDIEE ∧
      o'.id = o2.id ∧ o'.paidAt = o2.paidAt ∧
      (admin_mark_delivered st tid now).1.orders
        = replaceBy (fun x => x.id == o2.id) o' st.orders := by
  unfold admin_mark_delivered
  cases hfind : order_get_by_id st tid with
  | none => exact Or.inl rfl
  | some o2 =>
    have hid : o2.id = tid := by
      simpa using List.find?_some (show List.find? (fun x => x.id == tid) st.orders = some o2 from hfind)
    have hfind' : order_get_by_id st o2.id = some o2 := by
      rw [hid]; exact hfind
    dsimp only
    split_ifs with hs hdel
    · exact Or.inl rfl
    · refine Or.inr ⟨o2, { o2 with status := OrderStatus.LIVREE, deliveredAt := some now },
        rfl, not_not.mp hs, rfl, rfl, ?_⟩
      rw [order_repo_update_present st
        { o2 with status := OrderStatus.LIVREE, deliveredAt := some now } o2 hfind']
    · refine Or.inr ⟨o2, { o2 with status := OrderStatus.LIVREE, deliveredAt := some now },
        rfl, not_not.mp hs, rfl, rfl, ?_⟩
      rw [order_repo_update_present st
        { o2 with status := OrderStatus.LIVREE, deliveredAt := some now } o2 hfind']

theorem admin_refund_order_orders_shape (st : St) (tid : Nat) (now : Nat) :
    (admin_refund_order st tid now).1.orders = st.orders ∨
    ∃ o2 o', order_get_by_id st tid = some o2 ∧
      (o2.status = OrderStatus.PAYEE ∨ o2.status = OrderStatus.EXPEDIEE ∨
        o2.status = OrderStatus.LIVREE) ∧
      o'.id = o2.id ∧ o'.paidAt = o2.paidAt ∧
      (admin_refund_order st tid now).1.orders
        = replaceBy (fun x => x.id == o2.id) o' st.orders := by
  unfold admin_refund_order
  cases hfind : order_get_by_id st tid with
  | none => exact Or.inl rfl
  | some o2 =>
    have hid : o2.id = tid := by
      simpa using List.find?_some (show List.find? (fun x => x.id == tid) st.orders = some o2 from hfind)
    have hfind' : order_get_by_id st o2.id = some o2 := by
      rw [hid]; exact hfind
    dsimp only
    split_ifs with hs hpay
    · exact Or.inl rfl
    · exact Or.inl rfl
    · refine Or.inr ⟨o2, { o2 with status := OrderStatus.REMBOURSEE, refundedAt := some now },
        rfl, by simp only [Bool.not_eq_true', Bool.not_eq_false', Bool.not_eq_true, Bool.not_eq_false, decide_eq_true_eq, decide_eq_false_iff_not, not_not] at hs; tauto, rfl, rfl, ?_⟩
      exact update_after_restore_orders _ _ _ o2 hfind'

theorem find_shape_cases (st : St) (oid tid : Nat) (o o2 o' : Order)
    (hfind : order_get_by_id st oid = some o)
    (h1 : order_get_by_id st tid = some o2) (ha : o'.id = o2.id) :
    o2 = o ∨
    (replaceBy (fun x => x.id == o2.id) o' st.orders).find? (fun x => x.id == oid) = some o := by
  by_cases he : o2.id = oid
  · left
    have hid : o2.id = tid := by
      simpa using List.find?_some (show List.find? (fun x => x.id == tid) st.orders = some o2 from h1)
    have : tid = oid := by rw [← hid, he]
    rw [this] at h1
    rw [hfind] at h1
    exact (Option.some.injEq _ _ ▸ h1).symm
  · right
    rw [replaceBy_find?_other (fun x => x.id == o2.id) (fun x => x.id == oid) o' st.orders
      (fun x hx => by
        simp only [beq_iff_eq] at hx
        simp only [beq_eq_false_iff_ne, ne_eq, hx]
        exact fun hh => he hh.symm)
      (by
        simp only [ha, beq_eq_false_iff_ne, ne_eq]
        exact he)]
    exact hfind

/-- C3 (amended): `ANNULEE` and `REMBOURSEE` are terminal — no
status-mutating endpoint of the HTTP API moves an order out of them (the
claim additionally listed `LIVREE`, which the admin refund endpoint does
move to `REMBOURSEE`; see the counterexample). -/
theorem annulee_remboursee_terminal (st : St) (oid : Nat) (o : Order)
    (hfind : order_get_by_id st oid = some o)
    (hterm : o.status = OrderStatus.ANNULEE ∨ o.status = OrderStatus.REMBOURSEE) :
    ∀ a : ApiAction, order_get_by_id (apiStep st a) oid = some o := by
  intro a
  cases a with
  | pay tid uid pd nM nY thr h1 h2 =>
    rcases pay_order_orders_shape st tid uid pd nM nY thr h1 h2 with h | ⟨o2, o', hf1, hguard, ha, hb, hc⟩
    · show List.find? (fun x => x.id == oid) (pay_order st tid uid pd nM nY thr h1 h2).1.orders = some o
      rw [h]; exact hfind
    · rcases find_shape_cases st oid tid o o2 o' hfind hf1 ha with he | he
      · rw [he] at hguard
        rcases hterm with ht | ht <;> rw [ht] at hguard <;> cases hguard
      · show List.find? (fun x => x.id == oid) (pay_order st tid uid pd nM nY thr h1 h2).1.orders = some o
        rw [hc]; exact he
  | cancel tid uid now =>
    rcases cancel_order_orders_shape st tid uid now with h | ⟨o2, o', hf1, hguard, ha, hb, hc⟩
    · show List.find? (fun x => x.id == oid) (cancel_order st tid uid now).1.orders = some o
      rw [h]; exact hfind
    · rcases find_shape_cases st oid tid o o2 o' hfind hf1 ha with he | he
      · rw [he] at hguard
        rcases hterm with ht | ht <;> rw [ht] at hguard <;>
          rcases hguard with hg | hg | hg <;> cases hg
      · show List.find? (fun x => x.id == oid) (cancel_order st tid uid now).1.orders = some o
        rw [hc]; exact he
  | adminCancel tid now =>
    rcases admin_cancel_order_orders_shape st tid now with h | ⟨o2, o', hf1, hguard, ha, hb, hc⟩
    · show List.find? (fun x => x.id == oid) (admin_cancel_order st tid now).1.orders = some o
      rw [h]; exact hfind
    · rcases find_shape_cases st oid tid o o2 o' hfind hf1 ha with he | he
      · rw [he] at hguard
        rcases hterm with ht | ht <;> rw [ht] at hguard <;>
          rcases hguard with hg | hg | hg <;> cases hg
      · show List.find? (fun x => x.id == oid) (admin_cancel_order st tid now).1.orders = some o
        rw [hc]; exact he
  | adminValidate tid now =>
    rcases admin_validate_order_orders_shape st tid now with h | ⟨o2, o', hf1, hguard, ha, hb, hc⟩
    · show List.find? (fun x => x.id == oid) (admin_validate_order st tid now).1.orders = some o
      rw [h]; exact hfind
    · rcases find_shape_cases st oid tid o o2 o' hfind hf1 ha with he | he
      · rw [he] at hguard
        rcases hterm with ht | ht <;> rw [ht] at hguard <;>
          rcases hguard with hg | hg <;> cases hg
      · show List.find? (fun x => x.id == oid) (admin_validate_order st tid now).1.orders = some o
        rw [hc]; exact he
  | adminShip tid d now =>
    rcases admin_ship_order_orders_shape st tid d now with h | ⟨o2, o', hf1, hguard, ha, hb, hc⟩
    · show List.find? (fun x => x.id == oid) (admin_ship_order st tid d now).1.orders = some o
      rw [h]; exact hfind
    · rcases find_shape_cases st oid tid o o2 o' hfind hf1 ha with he | he
      · rw [he] at hguard
        rcases hterm with ht | ht <;> rw [ht] at hguard <;>
          rcases hguard with hg | hg <;> cases hg
      · show List.find? (fun x => x.id == oid) (admin_ship_order st tid d now).1.orders = some o
        rw [hc]; exact he
  | adminMarkDelivered tid now =>
    rcases admin_mark_delivered_orders_shape st tid now with h | ⟨o2, o', hf1, hguard, ha, hb, hc⟩
    · show List.find? (fun x => x.id == oid) (admin_mark_delivered st tid now).1.orders = some o
      rw [h]; exact hfind
    · rcases find_shape_cases st oid tid o o2 o' hfind hf1 ha with he | he
      · rw [he] at hguard
        rcases hterm with ht | ht <;> rw [ht] at hguard <;> cases hguard
      · show List.find? (fun x => x.id == oid) (admin_mark_delivered st tid now).1.orders = some o
        rw [hc]; exact he
  | adminRefund tid now =>
    rcases admin_refund_order_orders_shape st tid now with h | ⟨o2, o', hf1, hguard, ha, hb, hc⟩
    · show List.find? (fun x => x.id == oid) (admin_refund_order st tid now).1.orders = some o
      rw [h]; exact hfind
    · rcases find_shape_cases st oid tid o o2 o' hfind hf1 ha with he | he
      · rw [he] at hguard
        rcases hterm with ht | ht <;> rw [ht] at hguard <;>
          rcases hguard with hg | hg | hg <;> cases hg
      · show List.find? (fun x => x.id == oid) (admin_refund_order st tid now).1.orders = some o
        rw [hc]; exact he

/-- C3 counterexample: an order in status LIVREE with a recorded payment is
moved to REMBOURSEE by POST /admin/orders/{id}/refund, so LIVREE is not
terminal as the claim states. -/
theorem livree_not_terminal :
    (order_get_by_id stLivree 1).map Order.status = some OrderStatus.LIVREE ∧
    (order_get_by_id (apiStep stLivree (ApiAction.adminRefund 1 5)) 1).map Order.status
      = some OrderStatus.REMBOURSEE := by
  constructor
  · rfl
  · rfl

/-- C3 witness: the terminal-status theorem applied to a concrete
REMBOURSEE order and all endpoint actions. -/
theorem annulee_remboursee_terminal_witness :
    order_get_by_id stRemboursee 1 = some (mkOrder 1 10 OrderStatus.REMBOURSEE)
    ∧ ((mkOrder 1 10 OrderStatus.REMBOURSEE).status = OrderStatus.ANNULEE ∨
       (mkOrder 1 10 OrderStatus.REMBOURSEE).status = OrderStatus.REMBOURSEE)
    ∧ ∀ a : ApiAction,
        order_get_by_id (apiStep stRemboursee a) 1 = some (mkOrder 1 10 OrderStatus.REMBOURSEE) :=
  ⟨rfl, Or.inr rfl,
    annulee_remboursee_terminal stRemboursee 1 (mkOrder 1 10 OrderStatus.REMBOURSEE) rfl (Or.inr rfl)⟩

theorem paid_at_shape_case (st : St) (o2 onew : Order) (resOrders : List Order)
    (hinv : ∀ o ∈ st.orders, o.paidAt = none)
    (ho2 : o2 ∈ st.orders) (hb : onew.paidAt = o2.paidAt)
    (hc : resOrders = replaceBy (fun x => x.id == o2.id) onew st.orders) :
    ∀ o' ∈ resOrders, o'.paidAt = none := by
  intro o' hmem
  rw [hc] at hmem
  rcases mem_replaceBy _ _ _ _ hmem with h | ⟨h, _⟩
  · rw [h, hb]
    exact hinv o2 ho2
  · exact hinv o' h

/-- C10: no operation assigns `Order.paid_at`: every status-mutating
endpoint (successful payment included, which sets only the status and the
payment id) preserves an all-orders `paid_at = none` invariant; the generic
`update_status` repository helper, which has no `PAYEE` branch, preserves
it too; and `OrderRepository.create` initializes `paid_at` absent.  Hence
in every reachable state every paid_at keeps its initial absent value. -/
theorem paid_at_never_assigned :
    (∀ (st : St) (a : ApiAction), (∀ o ∈ st.orders, o.paidAt = none) →
      ∀ o' ∈ (apiStep st a).orders, o'.paidAt = none)
    ∧ (∀ (st : St) (oid : Nat) (status : OrderStatus) (now : Nat),
        (∀ o ∈ st.orders, o.paidAt = none) →
        ∀ o' ∈ (order_update_status st oid status now).1.orders, o'.paidAt = none)
    ∧ (∀ (st : St) (uid : Nat) (status : OrderStatus) (now : Nat),
        (order_repo_create st uid status now).2.paidAt = none) := by
  refine ⟨?_, ?_, ?_⟩
  · intro st a hinv o' hmem
    cases a with
    | pay tid uid pd nM nY thr h1 h2 =>
      rcases pay_order_orders_shape st tid uid pd nM nY thr h1 h2 with h | ⟨o2, onew, hf1, _, _, hb, hc⟩
      · refine hinv o' ?_
        rw [← h]
        exact hmem
      · exact paid_at_shape_case st o2 onew _ hinv (List.mem_of_find?_eq_some hf1) hb hc o' hmem
    | cancel tid uid now =>
      rcases cancel_order_orders_shape st tid uid now with h | ⟨o2, onew, hf1, _, _, hb, hc⟩
      · refine hinv o' ?_
        rw [← h]
        exact hmem
      · exact paid_at_shape_case st o2 onew _ hinv (List.mem_of_find?_eq_some hf1) hb hc o' hmem
    | adminCancel tid now =>
      rcases admin_cancel_order_orders_shape st tid now with h | ⟨o2, onew, hf1, _, _, hb, hc⟩
      · refine hinv o' ?_
        rw [← h]
        exact hmem
      · exact paid_at_shape_case st o2 onew _ hinv (List.mem_of_find?_eq_some hf1) hb hc o' hmem
    | adminValidate tid now =>
      rcases admin_validate_order_orders_shape st tid now with h | ⟨o2, onew, hf1, _, _, hb, hc⟩
      · refine hinv o' ?_
        rw [← h]
        exact hmem
      · exact paid_at_shape_case st o2 onew _ hinv (List.mem_of_find?_eq_some hf1) hb hc o' hmem
    | adminShip tid d now =>
      rcases admin_ship_order_orders_shape st tid d now with h | ⟨o2, onew, hf1, _, _, hb, hc⟩
      · refine hinv o' ?_
        rw [← h]
        exact hmem
      · exact paid_at_shape_case st o2 onew _ hinv (List.mem_of_find?_eq_some hf1) hb hc o' hmem
    | adminMarkDelivered tid now =>
      rcases admin_mark_delivered_orders_shape st tid now with h | ⟨o2, onew, hf1, _, _, hb, hc⟩
      · refine hinv o' ?_
        rw [← h]
        exact hmem
      · exact paid_at_shape_case st o2 onew _ hinv (List.mem_of_find?_eq_some hf1) hb hc o' hmem
    | adminRefund tid now =>
      rcases admin_refund_order_orders_shape st tid now with h | ⟨o2, onew, hf1, _, _, hb, hc⟩
      · refine hinv o' ?_
        rw [← h]
        exact hmem
      · exact paid_at_shape_case st o2 onew _ hinv (List.mem_of_find?_eq_some hf1) hb hc o' hmem
  · intro st oid status now hinv o' hmem
    unfold order_update_status at hmem
    cases hfind : order_get_by_id st oid with
    | none =>
      rw [hfind] at hmem
      exact hinv o' hmem
    | some o =>
      rw [hfind] at hmem
      rcases mem_replaceBy _ _ _ _ hmem with h | ⟨h, _⟩
      · rw [h]
        cases status <;> exact hinv o (List.mem_of_find?_eq_some hfind)
      · exact hinv o' h
  · intro st uid status now
    rfl

/-- C10 witness: the invariant holds on the concrete LIVREE state and is
preserved by a concrete admin refund call. -/
theorem paid_at_never_assigned_witness :
    (∀ o ∈ stLivree.orders, o.paidAt = none)
    ∧ (∀ o' ∈ (apiStep stLivree (ApiAction.adminRefund 1 5)).orders, o'.paidAt = none) :=
  ⟨by decide, paid_at_never_assigned.1 stLivree (ApiAction.adminRefund 1 5) (by decide)⟩

theorem order_repo_update_payments (st : St) (o : Order) :
    (order_repo_update st o).1.payments = st.payments := by
  cases h : order_get_by_id st o.id with
  | some row => rw [order_repo_update_present st o row h]
  | none => rw [order_repo_update_absent st o h]

theorem decrement_stock_payments (items : List OrderItem) (st : St) (thr : Int) :
    (decrement_stock_for_items st items thr).payments = st.payments := by
  rcases decrement_stock_products_only items st thr with ⟨ps, h⟩
  rw [h]

theorem restore_stock_payments (items : List OrderItem) (st : St) :
    (restore_stock_for_items st items).payments = st.payments := by
  rcases restore_stock_products_only items st with ⟨ps, h⟩
  rw [h]

theorem clear_cart_payments (st : St) (uid : Nat) :
    (clear_cart st uid).1.payments = st.payments := by
  rcases clear_cart_cartItems_only st uid with ⟨ci, h⟩
  rw [h]

theorem mem_flip_payments (l : List Payment) (tid : Nat) (p : Payment)
    (hp : p ∈ l.map (fun q => if q.orderId == tid then { q with status := "REFUNDED" } else q)) :
    p ∈ l ∨ p.status = "REFUNDED" := by
  rcases List.mem_map.mp hp with ⟨q, hq, hpq⟩
  by_cases h : (q.orderId == tid) = true
  · right
    rw [← hpq, h]
    rfl
  · left
    rw [← hpq]
    simp only [Bool.not_eq_true] at h
    rw [h]
    simpa using hq

theorem pay_order_charge_payments_shape (st : St) (tid uid : Nat) (o2 : Order) (pd : PayIn)
    (thr : Int) (h1 h2 : String) :
    ∀ p ∈ (pay_order_charge st tid uid o2 pd thr h1 h2).1.payments,
      p ∈ st.payments ∨ p.status = "SUCCEEDED" ∨ p.status = "FAILED" := by
  intro p hp
  unfold pay_order_charge at hp
  dsimp only at hp
  by_cases hgw : (!(simulate_payment (sanitize_numeric pd.cardNumber) h1 h2).success) = true
  · rw [if_pos hgw] at hp
    rcases List.mem_append.mp hp with h | h
    · exact Or.inl h
    · right
      rw [List.mem_singleton.mp h]
      by_cases hb : (simulate_payment (sanitize_numeric pd.cardNumber) h1 h2).success = true
      · exact Or.inl (by simp [pay_payment_data, hb])
      · exact Or.inr (by simp [pay_payment_data, hb])
  · rw [if_neg hgw] at hp
    rw [order_repo_update_payments, clear_cart_payments, decrement_stock_payments] at hp
    rcases List.mem_append.mp hp with h | h
    · exact Or.inl h
    · right
      rw [List.mem_singleton.mp h]
      by_cases hb : (simulate_payment (sanitize_numeric pd.cardNumber) h1 h2).success = true
      · exact Or.inl (by simp [pay_payment_data, hb])
      · exact Or.inr (by simp [pay_payment_data, hb])

theorem pay_order_payments_shape (st : St) (tid uid : Nat) (pd : PayIn)
    (nM nY thr : Int) (h1 h2 : String) :
    ∀ p ∈ (pay_order st tid uid pd nM nY thr h1 h2).1.payments,
      p ∈ st.payments ∨ p.status = "SUCCEEDED" ∨ p.status = "FAILED" := by
  intro p hp
  unfold pay_order at hp
  cases hfind : order_get_by_id st tid with
  | none =>
    rw [hfind] at hp
    exact Or.inl hp
  | some o2 =>
    rw [hfind] at hp
    dsimp only at hp
    split_ifs at hp with hu hs
    · exact Or.inl hp
    · exact Or.inl hp
    · cases hv : pay_validations_err pd nM nY with
      | some e =>
        rw [hv] at hp
        exact Or.inl hp
      | none =>
        rw [hv] at hp
        exact pay_order_charge_payments_shape st tid uid o2 pd thr h1 h2 p hp

theorem cancel_effects_payments_shape (st : St) (tid : Nat) (o2 : Order) (now : Nat) :
    ∀ p ∈ (cancel_order_effects st tid o2 now).1.payments, p ∈ st.payments ∨ p.status = "REFUNDED" := by
  intro p hp
  unfold cancel_order_effects at hp
  dsimp only at hp
  by_cases hc : o2.status = OrderStatus.PAYEE ∧ payments_get_by_order_id st tid ≠ []
  · simp only [if_pos hc] at hp
    rw [order_repo_update_payments, restore_stock_payments] at hp
    exact mem_flip_payments st.payments tid p hp
  · simp only [if_neg hc] at hp
    rw [order_repo_update_payments, restore_stock_payments] at hp
    exact Or.inl hp

theorem cancel_order_payments_shape (st : St) (tid uid : Nat) (now : Nat) :
    ∀ p ∈ (cancel_order st tid uid now).1.payments, p ∈ st.payments ∨ p.status = "REFUNDED" := by
  intro p hp
  unfold cancel_order at hp
  cases hfind : order_get_by_id st tid with
  | none =>
    rw [hfind] at hp
    exact Or.inl hp
  | some o2 =>
    rw [hfind] at hp
    dsimp only at hp
    split_ifs at hp with hu hs
    · exact Or.inl hp
    · exact Or.inl hp
    · exact cancel_effects_payments_shape st tid o2 now p hp

theorem admin_cancel_order_payments_shape (st : St) (tid : Nat) (now : Nat) :
    ∀ p ∈ (admin_cancel_order st tid now).1.payments, p ∈ st.payments ∨ p.status = "REFUNDED" := by
  intro p hp
  unfold admin_cancel_order at hp
  cases hfind : order_get_by_id st tid with
  | none =>
    rw [hfind] at hp
    exact Or.inl hp
  | some o2 =>
    rw [hfind] at hp
    dsimp only at hp
    split_ifs at hp with hs
    · exact Or.inl hp
    · exact cancel_effects_payments_shape st tid o2 now p hp

theorem admin_validate_order_payments (st : St) (tid : Nat) (now : Nat) :
    (admin_validate_order st tid now).1.payments = st.payments := by
  unfold admin_validate_order
  cases hfind : order_get_by_id st tid with
  | none => rfl
  | some o2 =>
    dsimp only
    split_ifs with hs
    · rfl
    · exact order_repo_update_payments st _

theorem admin_ship_order_payments (st : St) (tid : Nat) (d : DeliveryIn) (now : Nat) :
    (admin_ship_order st tid d now).1.payments = st.payments := by
  unfold admin_ship_order
  cases hfind : order_get_by_id st tid with
  | none => rfl
  | some o2 =>
    dsimp only
    split_ifs with hs
    · rfl
    · exact order_repo_update_payments _ _

theorem admin_mark_delivered_payments (st : St) (tid : Nat) (now : Nat) :
    (admin_mark_delivered st tid now).1.payments = st.payments := by
  unfold admin_mark_delivered
  cases hfind : order_get_by_id st tid with
  | none => rfl
  | some o2 =>
    dsimp only
    split_ifs with hs hdel
    · rfl
    · exact order_repo_update_payments st _
    · exact order_repo_update_payments st _

theorem admin_refund_order_payments_shape (st : St) (tid : Nat) (now : Nat) :
    ∀ p ∈ (admin_refund_order st tid now).1.payments, p ∈ st.payments ∨ p.status = "REFUNDED" := by
  intro p hp
  unfold admin_refund_order at hp
  cases hfind : order_get_by_id st tid with
  | none =>
    rw [hfind] at hp
    exact Or.inl hp
  | some o2 =>
    rw [hfind] at hp
    dsimp only at hp
    split_ifs at hp with hs hpay
    · exact Or.inl hp
    · exact Or.inl hp
    · rw [order_repo_update_payments, restore_stock_payments] at hp
      exact mem_flip_payments st.payments tid p hp

theorem process_payment_payments_shape (st : St) (tid : Nat) (pd : ProcPayIn) (h1 h2 : String) :
    ∀ p ∈ (process_payment st tid pd h1 h2).1.payments,
      p ∈ st.payments ∨ p.status = "PAID" ∨ p.status = "FAILED" := by
  intro p hp
  unfold process_payment at hp
  cases hfind : order_get_by_id st tid with
  | none =>
    rw [hfind] at hp
    exact Or.inl hp
  | some o2 =>
    rw [hfind] at hp
    dsimp only at hp
    by_cases hs : (!decide (o2.status = OrderStatus.CREE ∨ o2.status = OrderStatus.VALIDEE)) = true
    · rw [if_pos hs] at hp
      exact Or.inl hp
    · rw [if_neg hs] at hp
      by_cases hgw : (!(simulate_payment pd.cardNumber h1 h2).success) = true
      · rw [if_pos hgw] at hp
        rcases List.mem_append.mp hp with h | h
        · exact Or.inl h
        · right
          rw [List.mem_singleton.mp h]
          by_cases hb : (simulate_payment pd.cardNumber h1 h2).success = true
          · exact Or.inl (by simp [hb])
          · exact Or.inr (by simp [hb])
      · rw [if_neg hgw] at hp
        rcases List.mem_append.mp hp with h | h
        · exact Or.inl h
        · right
          rw [List.mem_singleton.mp h]
          by_cases hb : (simulate_payment pd.cardNumber h1 h2).success = true
          · exact Or.inl (by simp [hb])
          · exact Or.inr (by simp [hb])

theorem process_refund_payments_shape (st : St) (tid : Nat) (amt : Option Int) (h1 : String) :
    ∀ p ∈ (process_refund st tid amt h1).1.payments, p ∈ st.payments ∨ p.status = "REFUNDED" := by
  intro p hp
  unfold process_refund at hp
  cases hfind : order_get_by_id st tid with
  | none =>
    rw [hfind] at hp
    exact Or.inl hp
  | some o2 =>
    rw [hfind] at hp
    dsimp only at hp
    by_cases hs : (!decide (o2.status = OrderStatus.PAYEE ∨ o2.status = OrderStatus.ANNULEE)) = true
    · rw [if_pos hs] at hp
      exact Or.inl hp
    · rw [if_neg hs] at hp
      cases hinit : o2.paymentId.bind (payment_get_by_id st) with
      | none =>
        rw [hinit] at hp
        exact Or.inl hp
      | some initial =>
        rw [hinit] at hp
        dsimp only at hp
        cases hch : initial.chargeId with
        | none =>
          rw [hch] at hp
          exact Or.inl hp
        | some chargeId =>
          rw [hch] at hp
          dsimp only at hp
          by_cases href : (!(simulate_refund chargeId h1).success) = true
          · rw [if_pos href] at hp
            exact Or.inl hp
          · rw [if_neg href] at hp
            rcases List.mem_append.mp hp with h | h
            · exact Or.inl h
            · right
              rw [List.mem_singleton.mp h]

/-- C4 (amended): the closed status vocabulary actually preserved by every
payment-creating and payment-mutating operation is {PENDING, SUCCEEDED,
PAID, FAILED, REFUNDED}: the HTTP endpoints write only SUCCEEDED, FAILED
and REFUNDED, but `PaymentService.process_payment` records "PAID" (not
"SUCCEEDED") on success, so the vocabulary of the claim is not closed under
it (see the counterexample). -/
theorem payment_status_closed_vocabulary :
    (∀ (st : St) (a : ApiAction), (∀ p ∈ st.payments, paymentStatusVocab p) →
      ∀ p ∈ (apiStep st a).payments, paymentStatusVocab p)
    ∧ (∀ (st : St) (oid : Nat) (pd : ProcPayIn) (h1 h2 : String),
        (∀ p ∈ st.payments, paymentStatusVocab p) →
        ∀ p ∈ (process_payment st oid pd h1 h2).1.payments, paymentStatusVocab p)
    ∧ (∀ (st : St) (oid : Nat) (amt : Option Int) (h1 : String),
        (∀ p ∈ st.payments, paymentStatusVocab p) →
        ∀ p ∈ (process_refund st oid amt h1).1.payments, paymentStatusVocab p) := by
  refine ⟨?_, ?_, ?_⟩
  · intro st a hinv p hp
    cases a with
    | pay tid uid pd nM nY thr h1 h2 =>
      rcases pay_order_payments_shape st tid uid pd nM nY thr h1 h2 p hp with h | h | h
      · exact hinv p h
      · exact Or.inr (Or.inl h)
      · exact Or.inr (Or.inr (Or.inr (Or.inl h)))
    | cancel tid uid now =>
      rcases cancel_order_payments_shape st tid uid now p hp with h | h
      · exact hinv p h
      · exact Or.inr (Or.inr (Or.inr (Or.inr h)))
    | adminCancel tid now =>
      rcases admin_cancel_order_payments_shape st tid now p hp with h | h
      · exact hinv p h
      · exact Or.inr (Or.inr (Or.inr (Or.inr h)))
    | adminValidate tid now =>
      refine hinv p ?_
      rw [← admin_validate_order_payments st tid now]
      exact hp
    | adminShip tid d now =>
      refine hinv p ?_
      rw [← admin_ship_order_payments st tid d now]
      exact hp
    | adminMarkDelivered tid now =>
      refine hinv p ?_
      rw [← admin_mark_delivered_payments st tid now]
      exact hp
    | adminRefund tid now =>
      rcases admin_refund_order_payments_shape st tid now p hp with h | h
      · exact hinv p h
      · exact Or.inr (Or.inr (Or.inr (Or.inr h)))
  · intro st oid pd h1 h2 hinv p hp
    rcases process_payment_payments_shape st oid pd h1 h2 p hp with h | h | h
    · exact hinv p h
    · exact Or.inr (Or.inr (Or.inl h))
    · exact Or.inr (Or.inr (Or.inr (Or.inl h)))
  · intro st oid amt h1 hinv p hp
    rcases process_refund_payments_shape st oid amt h1 p hp with h | h
    · exact hinv p h
    · exact Or.inr (Or.inr (Or.inr (Or.inr h)))

/-- C4 counterexample: on a CREE order charged with an accepted test card,
`PaymentService.process_payment` records a Payment row whose status is
"PAID", which is outside the claimed vocabulary {PENDING, SUCCEEDED,
FAILED, REFUNDED}. -/
theorem process_payment_writes_paid :
    ((process_payment stProc 1 procPd "aa" "bb").1.payments.map Payment.status = ["PAID"])
    ∧ "PAID" ∉ (["PENDING", "SUCCEEDED", "FAILED", "REFUNDED"] : List String) := by
  refine ⟨?_, by decide⟩
  rfl

/-- C4 witness: the extended-vocabulary invariant applied to a concrete
`process_payment` call on the empty payment table. -/
theorem payment_status_closed_vocabulary_witness :
    (∀ p ∈ stProc.payments, paymentStatusVocab p)
    ∧ (∀ p ∈ (process_payment stProc 1 procPd "aa" "bb").1.payments, paymentStatusVocab p) :=
  ⟨by decide, payment_status_closed_vocabulary.2.1 stProc 1 procPd "aa" "bb" (by decide)⟩

theorem decrement_eq_fold (st : St) (items : List OrderItem) (thr : Int) :
    decrement_stock_for_items st items thr = stock_fold (decrementProduct thr) st items := rfl

theorem restore_eq_fold (st : St) (items : List OrderItem) :
    restore_stock_for_items st items = stock_fold restoreProduct st items := rfl

theorem product_update_get_other (st : St) (q : Product) (x : Nat) (hne : q.id ≠ x) :
    product_get_by_id (product_update st q) x = product_get_by_id st x := by
  unfold product_update product_get_by_id replaceBy
  refine replaceBy_find?_other (fun y => y.id == q.id) (fun y => y.id == x) q st.products ?_ ?_
  · intro y hy
    simp only [beq_iff_eq] at hy
    simp only [beq_eq_false_iff_ne, ne_eq, hy]
    exact fun hh => hne hh.symm
  · simp only [beq_eq_false_iff_ne, ne_eq]
    exact hne

theorem product_get_congr (st st2 : St) (h : st2.products = st.products) (x : Nat) :
    product_get_by_id st2 x = product_get_by_id st x := by
  unfold product_get_by_id
  rw [h]

theorem stock_fold_get_other (g : Product → OrderItem → Product)
    (hg : ∀ p it, (g p it).id = p.id) (items : List OrderItem) (st : St) (x : Nat)
    (hx : ∀ it ∈ items, it.productId ≠ x) :
    product_get_by_id (stock_fold g st items) x = product_get_by_id st x := by
  induction items generalizing st with
  | nil => rfl
  | cons i rest ih =>
    have hrec := fun s => ih s (fun it hmem => hx it (List.mem_cons_of_mem _ hmem))
    show product_get_by_id
      (stock_fold g (match product_get_by_id st i.productId with
        | none => st
        | some product => product_update st (g product i)) rest) x = product_get_by_id st x
    cases hl : product_get_by_id st i.productId with
    | none => exact hrec st
    | some pr =>
      have hid : pr.id = i.productId := by
        simpa using List.find?_some (show List.find? (fun p => p.id == i.productId) st.products = some pr from hl)
      rw [hrec (product_update st (g pr i))]
      refine product_update_get_other st (g pr i) x ?_
      rw [hg pr i, hid]
      exact hx i (List.mem_cons_self i rest)

theorem stock_fold_get_spec (g : Product → OrderItem → Product)
    (hg : ∀ p it, (g p it).id = p.id) (items : List OrderItem) (st : St)
    (hnodup : (items.map (fun it => it.productId)).Nodup) :
    ∀ it ∈ items, ∀ pr, product_get_by_id st it.productId = some pr →
      product_get_by_id (stock_fold g st items) it.productId = some (g pr it) := by
  induction items generalizing st with
  | nil =>
    intro it hmem
    cases hmem
  | cons i rest ih =>
    intro it hmem pr hpr
    rw [List.map_cons, List.nodup_cons] at hnodup
    rcases List.mem_cons.mp hmem with hcase | hcase
    · subst hcase
      have hid : pr.id = it.productId := by
        simpa using List.find?_some (show List.find? (fun p => p.id == it.productId) st.products = some pr from hpr)
      show product_get_by_id
        (stock_fold g (match product_get_by_id st it.productId with
          | none => st
          | some product => product_update st (g product it)) rest) it.productId = some (g pr it)
      rw [hpr]
      have hother : ∀ j ∈ rest, j.productId ≠ it.productId := by
        intro j hj hcon
        exact hnodup.1 (hcon ▸ List.mem_map_of_mem (fun k => k.productId) hj)
      rw [stock_fold_get_other g hg rest _ it.productId hother]
      show (replaceBy (fun y => y.id == (g pr it).id) (g pr it) st.products).find?
        (fun y => y.id == it.productId) = some (g pr it)
      rw [hg pr it, hid]
      rw [replaceBy_find?_same (fun y => y.id == it.productId) (g pr it) st.products (by
        simp only [beq_iff_eq]
        rw [hg pr it, hid])]
      rw [show List.find? (fun y => y.id == it.productId) st.products = some pr from hpr]
      rfl
    · show product_get_by_id
        (stock_fold g (match product_get_by_id st i.productId with
          | none => st
          | some product => product_update st (g product i)) rest) it.productId = some (g pr it)
      cases hl : product_get_by_id st i.productId with
      | none => exact ih _ hnodup.2 it hcase pr hpr
      | some pr0 =>
        have hid0 : pr0.id = i.productId := by
          simpa using List.find?_some (show List.find? (fun p => p.id == i.productId) st.products = some pr0 from hl)
        have hne : i.productId ≠ it.productId := by
          intro hcon
          exact hnodup.1 (hcon ▸ List.mem_map_of_mem (fun k => k.productId) hcase)
        refine ih _ hnodup.2 it hcase pr ?_
        rw [product_update_get_other st (g pr0 i) it.productId (by rw [hg pr0 i, hid0]; exact hne)]
        exact hpr

theorem stock_fold_products_congr (g : Product → OrderItem → Product)
    (items : List OrderItem) (st st2 : St) (h : st2.products = st.products) :
    (stock_fold g st2 items).products = (stock_fold g st items).products := by
  induction items generalizing st st2 with
  | nil => exact h
  | cons i rest ih =>
    show (stock_fold g (match product_get_by_id st2 i.productId with
      | none => st2
      | some product => product_update st2 (g product i)) rest).products
      = (stock_fold g (match product_get_by_id st i.productId with
      | none => st
      | some product => product_update st (g product i)) rest).products
    rw [product_get_congr st st2 h]
    cases hl : product_get_by_id st i.productId with
    | none => exact ih st st2 h
    | some pr =>
      refine ih _ _ ?_
      show (replaceBy (fun y => y.id == (g pr i).id) (g pr i) st2.products)
        = (replaceBy (fun y => y.id == (g pr i).id) (g pr i) st.products)
      rw [h]

theorem order_repo_update_products (st : St) (o : Order) :
    (order_repo_update st o).1.products = st.products := by
  cases h : order_get_by_id st o.id with
  | some row => rw [order_repo_update_present st o row h]
  | none => rw [order_repo_update_absent st o h]

theorem restoreProduct_id (p : Product) (it : OrderItem) : (restoreProduct p it).id = p.id := by
  unfold restoreProduct
  split <;> rfl

theorem restoreProduct_stockQty (p : Product) (it : OrderItem) :
    (restoreProduct p it).stockQty = p.stockQty + it.quantity := by
  unfold restoreProduct
  split <;> rfl

theorem decrementProduct_id (thr : Int) (p : Product) (it : OrderItem) :
    (decrementProduct thr p it).id = p.id := rfl

theorem flip_payments_all_refunded (l : List Payment) (tid : Nat) :
    ∀ p ∈ l.map (fun q => if q.orderId == tid then { q with status := "REFUNDED" } else q),
      p.orderId = tid → p.status = "REFUNDED" := by
  intro p hp hpo
  rcases List.mem_map.mp hp with ⟨q, hq, hpq⟩
  by_cases h : (q.orderId == tid) = true
  · rw [← hpq, if_pos h]
  · exfalso
    rw [← hpq] at hpo
    rw [if_neg h] at hpo
    simp only [Bool.not_eq_true, beq_eq_false_iff_ne, ne_eq] at h
    exact h hpo

theorem payments_get_empty (st : St) (oid : Nat)
    (h : payments_get_by_order_id st oid = []) :
    ∀ p ∈ st.payments, p.orderId ≠ oid := by
  intro p hp hcon
  have hmem : p ∈ payments_get_by_order_id st oid := by
    unfold payments_get_by_order_id
    rw [List.mem_filter]
    exact ⟨hp, by simp [hcon]⟩
  rw [h] at hmem
  cases hmem

theorem cancel_effects_full (st : St) (oid : Nat) (o : Order) (now : Nat)
    (hoid : o.id = oid) (hfind : order_get_by_id st oid = some o) :
    ((cancel_order_effects st oid o now).1.payments
        = (if o.status = OrderStatus.PAYEE ∧ payments_get_by_order_id st oid ≠ [] then
            st.payments.map (fun p => if p.orderId == oid then { p with status := "REFUNDED" } else p)
          else st.payments))
    ∧ ((cancel_order_effects st oid o now).1.products
        = (restore_stock_for_items st (order_items_of st oid)).products)
    ∧ (order_get_by_id (cancel_order_effects st oid o now).1 oid
        = some (if o.status = OrderStatus.PAYEE then
            { o with
              status := OrderStatus.REMBOURSEE
              refundedAt := some now
              cancelledAt := some now }
          else { o with status := OrderStatus.ANNULEE, cancelledAt := some now })) := by
  have hfind' : order_get_by_id st o.id = some o := by
    rw [hoid]
    exact hfind
  have hfl : List.find? (fun y => y.id == oid) st.orders = some o := hfind
  unfold cancel_order_effects
  dsimp only
  by_cases hp : o.status = OrderStatus.PAYEE
  · by_cases hne : payments_get_by_order_id st oid ≠ []
    · have hcc : o.status = OrderStatus.PAYEE ∧ payments_get_by_order_id st oid ≠ [] := ⟨hp, hne⟩
      simp only [if_pos hcc, if_pos hp]
      set stF : St :=
        { st with payments :=
            st.payments.map (fun p =>
              if p.orderId == oid then { p with status := "REFUNDED" } else p) } with hstF
      rcases restore_stock_products_only (order_items_of stF oid) stF with ⟨ps, hps⟩
      have horders : (restore_stock_for_items stF (order_items_of stF oid)).orders = st.orders := by
        rw [hps]
      have hfind2 : order_get_by_id (restore_stock_for_items stF (order_items_of stF oid))
          ({ o with
              status := OrderStatus.REMBOURSEE
              refundedAt := some now
              cancelledAt := some now } : Order).id = some o := by
        rw [order_get_by_id_congr st _ horders]
        exact hfind'
      refine ⟨?_, ?_, ?_⟩
      · rw [order_repo_update_payments, restore_stock_payments]
      · rw [order_repo_update_products, restore_eq_fold, restore_eq_fold]
        exact stock_fold_products_congr restoreProduct (order_items_of st oid) st stF rfl
      · rw [order_repo_update_present _ _ o hfind2]
        dsimp only [order_get_by_id]
        rw [hoid]
        rw [replaceBy_find?_same _ _ _ (by simp), horders, hfl]
        rfl
    · have hcc : ¬(o.status = OrderStatus.PAYEE ∧ payments_get_by_order_id st oid ≠ []) :=
        fun hx => hne hx.2
      simp only [if_neg hcc, if_pos hp]
      rcases restore_stock_products_only (order_items_of st oid) st with ⟨ps, hps⟩
      have horders : (restore_stock_for_items st (order_items_of st oid)).orders = st.orders := by
        rw [hps]
      have hfind2 : order_get_by_id (restore_stock_for_items st (order_items_of st oid))
          ({ o with
              status := OrderStatus.REMBOURSEE
              refundedAt := some now
              cancelledAt := some now } : Order).id = some o := by
        rw [order_get_by_id_congr st _ horders]
        exact hfind'
      refine ⟨?_, ?_, ?_⟩
      · rw [order_repo_update_payments, restore_stock_payments]
      · rw [order_repo_update_products]
      · rw [order_repo_update_present _ _ o hfind2]
        dsimp only [order_get_by_id]
        rw [hoid]
        rw [replaceBy_find?_same _ _ _ (by simp), horders, hfl]
        rfl
  · have hcc : ¬(o.status = OrderStatus.PAYEE ∧ payments_get_by_order_id st oid ≠ []) :=
      fun hx => hp hx.1
    simp only [if_neg hcc, if_neg hp]
    rcases restore_stock_products_only (order_items_of st oid) st with ⟨ps, hps⟩
    have horders : (restore_stock_for_items st (order_items_of st oid)).orders = st.orders := by
      rw [hps]
    have hfind2 : order_get_by_id (restore_stock_for_items st (order_items_of st oid))
        ({ o with status := OrderStatus.ANNULEE, cancelledAt := some now } : Order).id = some o := by
      rw [order_get_by_id_congr st _ horders]
      exact hfind'
    refine ⟨?_, ?_, ?_⟩
    · rw [order_repo_update_payments, restore_stock_payments]
    · rw [order_repo_update_products]
    · rw [order_repo_update_present _ _ o hfind2]
      dsimp only [order_get_by_id]
      rw [hoid]
      rw [replaceBy_find?_same _ _ _ (by simp), horders, hfl]
      rfl

theorem cancel_order_runs_effects (st : St) (oid uid : Nat) (now : Nat) (o : Order)
    (hfind : order_get_by_id st oid = some o) (hown : o.userId = uid)
    (hstat : o.status = OrderStatus.CREE ∨ o.status = OrderStatus.VALIDEE ∨
      o.status = OrderStatus.PAYEE) :
    cancel_order st oid uid now = cancel_order_effects st oid o now := by
  unfold cancel_order
  rw [hfind]
  dsimp only
  rw [if_neg (by simp [hown])]
  rw [if_neg (by
    rw [Bool.not_eq_true', decide_eq_false_iff_not, not_not]
    exact hstat)]

/-- C2: for an order cancellable by its owner — cancelling a PAYEE order
restores each line quantity onto the product stock, marks all Payment rows
of that order REFUNDED, and ends in status REMBOURSEE; cancelling a CREE
(never-paid) order leaves the payment table unchanged and ends in status
ANNULEE; cancelling from any other status is rejected with a 400 and the
state is unchanged. -/
theorem cancel_order_spec (st : St) (oid uid : Nat) (now : Nat) (o : Order)
    (hfind : order_get_by_id st oid = some o)
    (hown : o.userId = uid)
    (hnodup : ((order_items_of st oid).map (fun it => it.productId)).Nodup) :
    (o.status = OrderStatus.PAYEE →
      (∀ p ∈ (cancel_order st oid uid now).1.payments, p.orderId = oid → p.status = "REFUNDED")
      ∧ (∀ it ∈ order_items_of st oid, ∀ pr, product_get_by_id st it.productId = some pr →
          (product_get_by_id (cancel_order st oid uid now).1 it.productId).map Product.stockQty
            = some (pr.stockQty + it.quantity))
      ∧ ((order_get_by_id (cancel_order st oid uid now).1 oid).map Order.status
          = some OrderStatus.REMBOURSEE))
    ∧ (o.status = OrderStatus.CREE →
      ((cancel_order st oid uid now).1.payments = st.payments)
      ∧ ((order_get_by_id (cancel_order st oid uid now).1 oid).map Order.status
          = some OrderStatus.ANNULEE))
    ∧ (¬(o.status = OrderStatus.CREE ∨ o.status = OrderStatus.VALIDEE ∨
          o.status = OrderStatus.PAYEE) →
      cancel_order st oid uid now
        = (st, Except.error ⟨400, "Cette commande ne peut pas être annulée"⟩)) := by
  have hoid : o.id = oid := by
    simpa using List.find?_some (show List.find? (fun y => y.id == oid) st.orders = some o from hfind)
  refine ⟨?_, ?_, ?_⟩
  · intro hp
    have hred := cancel_order_runs_effects st oid uid now o hfind hown (Or.inr (Or.inr hp))
    rcases cancel_effects_full st oid o now hoid hfind with ⟨hpay, hprod, hord⟩
    refine ⟨?_, ?_, ?_⟩
    · intro p hmem hpo
      rw [hred, hpay] at hmem
      by_cases hne : payments_get_by_order_id st oid ≠ []
      · rw [if_pos (show _ ∧ _ from ⟨hp, hne⟩)] at hmem
        exact flip_payments_all_refunded st.payments oid p hmem hpo
      · rw [if_neg (fun hx => hne hx.2)] at hmem
        exact absurd hpo (payments_get_empty st oid (not_not.mp hne) p hmem)
    · intro it hit pr hpr
      rw [hred]
      rw [product_get_congr (restore_stock_for_items st (order_items_of st oid)) _ hprod]
      rw [restore_eq_fold]
      rw [stock_fold_get_spec restoreProduct restoreProduct_id (order_items_of st oid) st hnodup it hit pr hpr]
      simp [restoreProduct_stockQty]
    · rw [hred, hord, if_pos hp]
      rfl
  · intro hcree
    have hp : ¬(o.status = OrderStatus.PAYEE) := by
      rw [hcree]
      intro hcon
      cases hcon
    have hred := cancel_order_runs_effects st oid uid now o hfind hown (Or.inl hcree)
    rcases cancel_effects_full st oid o now hoid hfind with ⟨hpay, hprod, hord⟩
    refine ⟨?_, ?_⟩
    · rw [hred, hpay, if_neg (fun hx => hp hx.1)]
    · rw [hred, hord, if_neg hp]
      rfl
  · intro hrej
    unfold cancel_order
    rw [hfind]
    dsimp only
    rw [if_neg (by simp [hown])]
    rw [if_pos (by
      rw [Bool.not_eq_true', decide_eq_false_iff_not]
      exact hrej)]

/-- C2 witness: cancelling the concrete PAYEE order of `stCancel` marks its
payment REFUNDED, restores the stock, and ends in REMBOURSEE. -/
theorem cancel_order_spec_witness :
    (order_get_by_id stCancel 1 = some (mkOrder 1 10 OrderStatus.PAYEE))
    ∧ ((mkOrder 1 10 OrderStatus.PAYEE).userId = 10)
    ∧ (((order_items_of stCancel 1).map (fun it => it.productId)).Nodup)
    ∧ (((order_get_by_id (cancel_order stCancel 1 10 7).1 1).map Order.status)
        = some OrderStatus.REMBOURSEE) :=
  ⟨rfl, rfl, by decide,
    ((cancel_order_spec stCancel 1 10 7 (mkOrder 1 10 OrderStatus.PAYEE) rfl rfl
      (by decide)).1 rfl).2.2⟩

theorem order_repo_update_carts (st : St) (o : Order) :
    (order_repo_update st o).1.carts = st.carts := by
  cases h : order_get_by_id st o.id with
  | some row => rw [order_repo_update_present st o row h]
  | none => rw [order_repo_update_absent st o h]

theorem order_repo_update_cartItems (st : St) (o : Order) :
    (order_repo_update st o).1.cartItems = st.cartItems := by
  cases h : order_get_by_id st o.id with
  | some row => rw [order_repo_update_present st o row h]
  | none => rw [order_repo_update_absent st o h]

theorem clear_cart_products (st : St) (uid : Nat) :
    (clear_cart st uid).1.products = st.products := by
  rcases clear_cart_cartItems_only st uid with ⟨ci, h⟩
  rw [h]

theorem cart_get_congr (st st2 : St) (h : st2.carts = st.carts) (uid : Nat) :
    cart_get_by_user_id st2 uid = cart_get_by_user_id st uid := by
  unfold cart_get_by_user_id
  rw [h]

theorem filter_not_filter (p : α → Bool) (l : List α) :
    (l.filter (fun x => !(p x))).filter p = [] := by
  induction l with
  | nil => rfl
  | cons a l ih =>
    by_cases h : p a = true
    · have h2 : (a :: l).filter (fun x => !(p x)) = l.filter (fun x => !(p x)) := by
        simp only [List.filter_cons, h, Bool.not_true]
        rw [if_neg (by simp)]
      rw [h2]
      exact ih
    · have h0 : p a = false := Bool.eq_false_iff.mpr h
      have h2 : (a :: l).filter (fun x => !(p x)) = a :: l.filter (fun x => !(p x)) := by
        simp only [List.filter_cons, h0, Bool.not_false]
        rw [if_pos trivial]
      rw [h2, List.filter_cons, h0]
      rw [if_neg (by simp)]
      exact ih

theorem clear_then_no_cart_items (st : St) (uid : Nat) (o' : Order) :
    cart_items_of_user (order_repo_update (clear_cart st uid).1 o').1 uid = [] := by
  unfold clear_cart
  cases hc : cart_get_by_user_id st uid with
  | none =>
    dsimp only
    unfold cart_items_of_user
    rw [cart_get_congr st _ (order_repo_update_carts st o') uid, hc]
  | some c =>
    dsimp only
    unfold cart_items_of_user
    rw [cart_get_congr _ _ (order_repo_update_carts
      { st with cartItems := st.cartItems.filter (fun it => !(it.cartId == c.id)) } o') uid]
    rw [cart_get_congr st
      { st with cartItems := st.cartItems.filter (fun it => !(it.cartId == c.id)) } rfl uid]
    rw [hc]
    dsimp only
    rw [order_repo_update_cartItems]
    exact filter_not_filter (fun it => it.cartId == c.id) st.cartItems

theorem pay_order_runs_charge (st : St) (oid uid : Nat) (pd : PayIn)
    (nM nY thr : Int) (h1 h2 : String) (o : Order)
    (hfind : order_get_by_id st oid = some o) (hown : o.userId = uid)
    (hstat : o.status = OrderStatus.CREE)
    (hv : pay_validations_err pd nM nY = none) :
    pay_order st oid uid pd nM nY thr h1 h2 = pay_order_charge st oid uid o pd thr h1 h2 := by
  unfold pay_order
  rw [hfind]
  dsimp only
  rw [if_neg (by simp [hown])]
  rw [if_neg (by simp [hstat])]
  rw [hv]

theorem pay_order_charge_success_full (st : St) (oid uid : Nat) (o : Order) (pd : PayIn)
    (thr : Int) (h1 h2 : String)
    (hgw : (simulate_payment (sanitize_numeric pd.cardNumber) h1 h2).success = true)
    (hoid : o.id = oid) (hfind : order_get_by_id st oid = some o) :
    ((pay_order_charge st oid uid o pd thr h1 h2).2
        = Except.ok ⟨st.nextId, "SUCCEEDED", order_total_cents st oid⟩)
    ∧ ((pay_order_charge st oid uid o pd thr h1 h2).1.products
        = (decrement_stock_for_items st (order_items_of st oid) thr).products)
    ∧ (cart_items_of_user (pay_order_charge st oid uid o pd thr h1 h2).1 uid = [])
    ∧ ((pay_order_charge st oid uid o pd thr h1 h2).1.orders
        = replaceBy (fun x => x.id == o.id)
            { o with status := OrderStatus.PAYEE, paymentId := some st.nextId } st.orders) := by
  have hfind' : order_get_by_id st o.id = some o := by
    rw [hoid]
    exact hfind
  unfold pay_order_charge
  dsimp only
  rw [if_neg (by simp [hgw])]
  refine ⟨rfl, ?_, ?_, ?_⟩
  · rw [order_repo_update_products, clear_cart_products, decrement_eq_fold, decrement_eq_fold]
    exact stock_fold_products_congr (decrementProduct thr) (order_items_of st oid)
      st (payment_repo_create st (pay_payment_data st oid pd h1 h2)).1 rfl
  · exact clear_then_no_cart_items _ uid
      { o with status := OrderStatus.PAYEE, paymentId := some st.nextId }
  · exact pay_success_orders st (pay_payment_data st oid pd h1 h2) (order_items_of st oid) thr uid
      { o with status := OrderStatus.PAYEE, paymentId := some st.nextId } o hfind'

/-- C1: paying a CREE order owned by the caller with a request that passes
the validation suite and a card the gateway accepts returns the fresh
payment id with status SUCCEEDED and the order total, decrements each
ordered product by the ordered quantity (floored at 0), empties the payer
cart, moves the order to PAYEE recording the payment id, and a second
payment attempt against the order is rejected with 400 and changes
nothing. -/
theorem pay_order_spec (st : St) (oid uid : Nat) (pd : PayIn)
    (nM nY thr : Int) (h1 h2 : String) (o : Order)
    (hfind : order_get_by_id st oid = some o)
    (hown : o.userId = uid)
    (hstat : o.status = OrderStatus.CREE)
    (hv : pay_validations_err pd nM nY = none)
    (hgw : (simulate_payment (sanitize_numeric pd.cardNumber) h1 h2).success = true)
    (hnodup : ((order_items_of st oid).map (fun it => it.productId)).Nodup) :
    ((pay_order st oid uid pd nM nY thr h1 h2).2
        = Except.ok ⟨st.nextId, "SUCCEEDED", order_total_cents st oid⟩)
    ∧ (∀ it ∈ order_items_of st oid, ∀ pr, product_get_by_id st it.productId = some pr →
        (product_get_by_id (pay_order st oid uid pd nM nY thr h1 h2).1 it.productId).map
            Product.stockQty
          = some (max 0 (pr.stockQty - it.quantity)))
    ∧ (cart_items_of_user (pay_order st oid uid pd nM nY thr h1 h2).1 uid = [])
    ∧ (order_get_by_id (pay_order st oid uid pd nM nY thr h1 h2).1 oid
        = some { o with status := OrderStatus.PAYEE, paymentId := some st.nextId })
    ∧ (∀ (pd2 : PayIn) (nM2 nY2 thr2 : Int) (g1 g2 : String),
        pay_order (pay_order st oid uid pd nM nY thr h1 h2).1 oid uid pd2 nM2 nY2 thr2 g1 g2
          = ((pay_order st oid uid pd nM nY thr h1 h2).1,
              Except.error ⟨400, "Commande déjà payée ou traitée"⟩)) := by
  have hoid : o.id = oid := by
    simpa using List.find?_some (show List.find? (fun y => y.id == oid) st.orders = some o from hfind)
  have hfind' : order_get_by_id st o.id = some o := by
    rw [hoid]
    exact hfind
  have hred := pay_order_runs_charge st oid uid pd nM nY thr h1 h2 o hfind hown hstat hv
  rcases pay_order_charge_success_full st oid uid o pd thr h1 h2 hgw hoid hfind with
    ⟨hres, hprod, hcart, hord⟩
  have hfinal : order_get_by_id (pay_order st oid uid pd nM nY thr h1 h2).1 oid
      = some { o with status := OrderStatus.PAYEE, paymentId := some st.nextId } := by
    rw [hred]
    unfold order_get_by_id
    rw [hord, ← hoid]
    rw [replaceBy_find?_same (fun x => x.id == o.id) _ st.orders (by simp)]
    rw [show List.find? (fun x => x.id == o.id) st.orders = some o from hfind']
    rfl
  refine ⟨?_, ?_, ?_, hfinal, ?_⟩
  · rw [hred]
    exact hres
  · intro it hit pr hpr
    rw [hred]
    rw [product_get_congr (decrement_stock_for_items st (order_items_of st oid) thr) _ hprod]
    rw [decrement_eq_fold]
    rw [stock_fold_get_spec (decrementProduct thr) (decrementProduct_id thr)
      (order_items_of st oid) st hnodup it hit pr hpr]
    rfl
  · rw [hred]
    exact hcart
  · intro pd2 nM2 nY2 thr2 g1 g2
    generalize hq : (pay_order st oid uid pd nM nY thr h1 h2).1 = stq at hfinal ⊢
    unfold pay_order
    rw [hfinal]
    dsimp only
    rw [if_neg (by simp [hown])]
    rw [if_pos (by decide)]

/-- C1 witness: on the concrete state `stPay`, paying the CREE order with a
valid request succeeds, returning payment id 20 with status SUCCEEDED, and
the payer cart ends empty. -/
theorem pay_order_spec_witness :
    (order_get_by_id stPay 1 = some (mkOrder 1 10 OrderStatus.CREE))
    ∧ ((mkOrder 1 10 OrderStatus.CREE).userId = 10)
    ∧ ((mkOrder 1 10 OrderStatus.CREE).status = OrderStatus.CREE)
    ∧ (pay_validations_err pdPay 1 2025 = none)
    ∧ ((simulate_payment (sanitize_numeric pdPay.cardNumber) "aa" "bb").success = true)
    ∧ (((order_items_of stPay 1).map (fun it => it.productId)).Nodup)
    ∧ ((pay_order stPay 1 10 pdPay 1 2025 0 "aa" "bb").2
        = Except.ok ⟨20, "SUCCEEDED", order_total_cents stPay 1⟩)
    ∧ (cart_items_of_user (pay_order stPay 1 10 pdPay 1 2025 0 "aa" "bb").1 10 = []) :=
  ⟨rfl, rfl, rfl, rfl, rfl, by decide,
    (pay_order_spec stPay 1 10 pdPay 1 2025 0 "aa" "bb" (mkOrder 1 10 OrderStatus.CREE)
      rfl rfl rfl rfl rfl (by decide)).1,
    (pay_order_spec stPay 1 10 pdPay 1 2025 0 "aa" "bb" (mkOrder 1 10 OrderStatus.CREE)
      rfl rfl rfl rfl rfl (by decide)).2.2.1⟩

theorem find?_product_reprice (f : Product → Int) (ps : List Product) (x : Nat) :
    (ps.map (fun p => { p with priceCents := f p })).find? (fun p => p.id == x)
      = (ps.find? (fun p => p.id == x)).map (fun p => { p with priceCents := f p }) := by
  induction ps with
  | nil => rfl
  | cons q ps ih =>
    rw [List.map_cons]
    cases hqx : (q.id == x) with
    | true =>
      rw [List.find?_cons, List.find?_cons]
      dsimp only
      rw [hqx]
      rfl
    | false =>
      rw [List.find?_cons, List.find?_cons]
      dsimp only
      rw [hqx]
      exact ih

theorem cartLineSurvives_reprice (f : Product → Int) (st : St) (it : CartItem) :
    cartLineSurvives
        { st with products := st.products.map (fun p => { p with priceCents := f p }) } it
      = cartLineSurvives st it := by
  unfold cartLineSurvives product_get_by_id
  dsimp only
  rw [find?_product_reprice f st.products it.productId]
  cases h : st.products.find? (fun p => p.id == it.productId) with
  | none => rfl
  | some p => rfl

theorem foldl_qty_1000 (l : List CartItem) (acc : Int) :
    l.foldl (fun a it => a + it.quantity * 1000) acc
      = acc + 1000 * (l.map (fun it => it.quantity)).sum := by
  induction l generalizing acc with
  | nil => simp
  | cons a l ih =>
    simp only [List.foldl_cons, List.map_cons, List.sum_cons]
    rw [ih]
    ring

/-- C5: the cart-view total is the fixed placeholder price of 1000 cents
per unit — for every state and user it equals 1000 times the sum of the
quantities of the surviving (active-product) cart lines, and it is
unchanged under an arbitrary repricing of every product, so the real
price_cents of the products never enters it. -/
theorem view_cart_placeholder_total (st : St) (uid : Nat) (f : Product → Int) :
    ((view_cart st uid).2.totalCents
        = 1000 * (((cart_items_of_user st uid).filter (cartLineSurvives st)).map
            (fun it => it.quantity)).sum)
    ∧ ((view_cart
          { st with products := st.products.map (fun p => { p with priceCents := f p }) }
          uid).2.totalCents
        = (view_cart st uid).2.totalCents) := by
  constructor
  · unfold view_cart cart_items_of_user
    cases hc : cart_get_by_user_id st uid with
    | none => simp
    | some c =>
      dsimp only
      rw [foldl_qty_1000]
      rw [zero_add]
  · unfold view_cart
    rw [cart_get_congr st
      { st with products := st.products.map (fun p => { p with priceCents := f p }) } rfl uid]
    cases hc : cart_get_by_user_id st uid with
    | none => rfl
    | some c =>
      dsimp only
      rw [show
        (({ st with products := st.products.map (fun p => { p with priceCents := f p }) } : St).cartItems.filter
            (fun it => it.cartId == c.id)).filter
            (cartLineSurvives
              { st with products := st.products.map (fun p => { p with priceCents := f p }) })
          = (st.cartItems.filter (fun it => it.cartId == c.id)).filter (cartLineSurvives st)
        from List.filter_congr (fun x _ => cartLineSurvives_reprice f st x)]

theorem declined_find_none (clean : String) (hend : strEndsWith clean "0000" = true) :
    declinedCards.find? (fun p => p.1 == clean) = none := by
  cases h : declinedCards.find? (fun p => p.1 == clean) with
  | none => rfl
  | some p =>
    exfalso
    have hpred := List.find?_some h
    have hmem := List.mem_of_find?_eq_some h
    have hcl : p.1 = clean := by simpa using hpred
    simp only [declinedCards, List.mem_cons, List.not_mem_nil, or_false] at hmem
    rcases hmem with rfl | rfl | rfl | rfl <;>
      (rw [← hcl] at hend; exact absurd hend (by decide))

/-- C6 counterexample: the cleaned digits of card 4242000000000000 end in
four zeros, yet the simulated charge succeeds (the 4242-prefix acceptance
is checked before the trailing-0000 refusal), so ending in 0000 does not
imply a generic refusal. -/
theorem ends0000_counterexample :
    (strEndsWith (strRemoveChar (strRemoveChar "4242000000000000" ' ') '-') "0000" = true)
    ∧ ((simulate_payment "4242000000000000" "a" "b").success = true)
    ∧ ((simulate_payment "4242000000000000" "a" "b").failureReason = none) :=
  ⟨by decide, by decide, by decide⟩

/-- C6 (amended): in simulation mode, a card whose cleaned digit string
ends in four zero digits and is neither on the success allow-list nor
4242- or 5555-prefixed is refused generically: failure, the generic
refusal reason, no transaction id and no charge id.  (The deny-list cannot
fire: none of its entries ends in 0000.) -/
theorem ends0000_generic_refusal (card h1 h2 : String)
    (hend : strEndsWith (strRemoveChar (strRemoveChar card ' ') '-') "0000" = true)
    (hsucc : (strRemoveChar (strRemoveChar card ' ') '-') ∉ successCards)
    (h42 : strStartsWith (strRemoveChar (strRemoveChar card ' ') '-') "4242" = false)
    (h55 : strStartsWith (strRemoveChar (strRemoveChar card ' ') '-') "5555" = false) :
    simulate_payment card h1 h2
      = { success := false, transactionId := none,
          failureReason := some "Votre carte a été refusée.", chargeId := none } := by
  unfold simulate_payment
  dsimp only
  rw [declined_find_none _ hend]
  dsimp only
  rw [if_neg (by simp [Bool.or_eq_true, decide_eq_true_eq, h42, h55, hsucc])]
  rw [if_pos hend]

/-- C6 witness for the amended theorem: the concrete card 4000111100000000
ends in 0000, avoids every acceptance rule, and gets the full generic
refusal. -/
theorem ends0000_generic_refusal_witness :
    (strEndsWith (strRemoveChar (strRemoveChar "4000111100000000" ' ') '-') "0000" = true)
    ∧ (simulate_payment "4000111100000000" "a" "b"
        = { success := false, transactionId := none,
            failureReason := some "Votre carte a été refusée.", chargeId := none }) :=
  ⟨by decide, ends0000_generic_refusal "4000111100000000" "a" "b"
    (by decide) (by decide) (by decide) (by decide)⟩

/-- C8: registration trichotomy — an existing email with a verifying
password returns the existing user and creates nothing; an existing email
with a non-verifying password fails with "Email déjà utilisé." and leaves
the user table unchanged; a fresh email appends exactly one new non-admin
user whose stored hash verifies the supplied password (given the hashing
contract `hhash`). -/
theorem register_spec (checkpw : String → String → Bool)
    (sha256hex hashPassword : String → String)
    (st : St) (email password fn ln addr : String)
    (hhash : verify_password checkpw sha256hex password (hashPassword password) = true) :
    (∀ u, user_get_by_email st email = some u →
        verify_password checkpw sha256hex password u.passwordHash = true →
        register checkpw sha256hex hashPassword st email password fn ln addr
          = (st, Except.ok u))
    ∧ (∀ u, user_get_by_email st email = some u →
        verify_password checkpw sha256hex password u.passwordHash = false →
        register checkpw sha256hex hashPassword st email password fn ln addr
          = (st, Except.error "Email déjà utilisé."))
    ∧ (user_get_by_email st email = none →
        ∃ newU : DUser,
          register checkpw sha256hex hashPassword st email password fn ln addr
            = ({ st with users := st.users ++ [newU], nextId := st.nextId + 1 },
               Except.ok newU)
          ∧ newU.isAdmin = false
          ∧ newU.email = email
          ∧ verify_password checkpw sha256hex password newU.passwordHash = true) := by
  refine ⟨?_, ?_, ?_⟩
  · intro u hu hv
    unfold register
    rw [hu]
    dsimp only
    rw [if_pos hv]
  · intro u hu hv
    unfold register
    rw [hu]
    dsimp only
    rw [if_neg (by simp [hv])]
  · intro hnone
    refine ⟨{ id := st.nextId
              email := email
              passwordHash := hashPassword password
              firstName := fn
              lastName := ln
              address := addr
              isAdmin := false },
      ?_, rfl, rfl, hhash⟩
    unfold register
    rw [hnone]

/-- C8 witness: on the empty database (fresh email), registering with a
reversible toy hash appends the one new non-admin user and its hash
verifies the password. -/
theorem register_spec_witness :
    (verify_password (fun pw h => h == "B" ++ pw) (fun s => s) "pw"
        ((fun t => "B" ++ t) "pw") = true)
    ∧ (user_get_by_email St.empty "e@x" = none)
    ∧ ∃ newU : DUser,
        register (fun pw h => h == "B" ++ pw) (fun s => s) (fun t => "B" ++ t)
            St.empty "e@x" "pw" "f" "l" "a"
          = ({ St.empty with
                users := St.empty.users ++ [newU]
                nextId := St.empty.nextId + 1 }, Except.ok newU)
        ∧ newU.isAdmin = false
        ∧ newU.email = "e@x"
        ∧ verify_password (fun pw h => h == "B" ++ pw) (fun s => s) "pw"
            newU.passwordHash = true :=
  ⟨by decide, rfl,
    (register_spec (fun pw h => h == "B" ++ pw) (fun s => s) (fun t => "B" ++ t)
      St.empty "e@x" "pw" "f" "l" "a" (by decide)).2.2 rfl⟩

theorem isPrefixOf_append (l1 l2 : List Char) : l1.isPrefixOf (l1 ++ l2) = true := by
  induction l1 with
  | nil => simp
  | cons a l ih => simp [List.isPrefixOf, ih]

theorem strStartsWith_sha_append (d : String) :
    strStartsWith ("sha256::" ++ d) "sha256::" = true := by
  unfold strStartsWith
  exact isPrefixOf_append "sha256::".toList d.toList

theorem shaExpected_append (d : String) :
    shaExpected ("sha256::" ++ d) = d := by
  unfold shaExpected
  have h : ("sha256::" ++ d).toList = "sha256::".toList ++ d.toList := rfl
  rw [h]
  have h8 : ("sha256::".toList).length = 8 := by decide
  rw [← h8, List.drop_left]
  cases d
  rfl

/-- C9: hashing then verifying round-trips — the same plaintext verifies
and a plaintext with a different hash image fails, both for the primary
bcrypt format (under the bcrypt contract: `checkpw` accepts exactly the
hashed plaintext and bcrypt hashes never carry the "sha256::" marker) and
for the SHA-256 fallback format marked "sha256::" (under injectivity of
the digest on the two plaintexts). -/
theorem password_roundtrip (checkpw : String → String → Bool)
    (hashpw sha256hex : String → String) (p q : String)
    (hbc1 : checkpw p (hashpw p) = true)
    (hbc2 : checkpw q (hashpw p) = false)
    (hmark : strStartsWith (hashpw p) "sha256::" = false)
    (hsha : sha256hex q ≠ sha256hex p) :
    (verify_password checkpw sha256hex p (hash_password_bcrypt hashpw p) = true)
    ∧ (verify_password checkpw sha256hex q (hash_password_bcrypt hashpw p) = false)
    ∧ (verify_password checkpw sha256hex p (hash_password_sha256 sha256hex p) = true)
    ∧ (verify_password checkpw sha256hex q (hash_password_sha256 sha256hex p) = false) := by
  refine ⟨?_, ?_, ?_, ?_⟩
  · unfold verify_password hash_password_bcrypt
    rw [if_pos (by simp [hmark])]
    exact hbc1
  · unfold verify_password hash_password_bcrypt
    rw [if_pos (by simp [hmark])]
    exact hbc2
  · unfold verify_password hash_password_sha256
    rw [if_neg (by simp [strStartsWith_sha_append (sha256hex p)])]
    rw [shaExpected_append]
    simp
  · unfold verify_password hash_password_sha256
    rw [if_neg (by simp [strStartsWith_sha_append (sha256hex p)])]
    rw [shaExpected_append]
    exact beq_eq_false_iff_ne.mpr hsha

/-- C9 witness: with a reversible toy bcrypt pair and the identity digest,
the same plaintext verifies against both hash formats and a different one
fails against the fallback format. -/
theorem password_roundtrip_witness :
    ((fun pw h => h == "B" ++ pw) "a" ((fun t => "B" ++ t) "a") = true)
    ∧ (verify_password (fun pw h => h == "B" ++ pw) (fun t => t) "a"
        (hash_password_sha256 (fun t => t) "a") = true)
    ∧ (verify_password (fun pw h => h == "B" ++ pw) (fun t => t) "b"
        (hash_password_sha256 (fun t => t) "a") = false) :=
  ⟨by decide,
    (password_roundtrip (fun pw h => h == "B" ++ pw) (fun t => "B" ++ t) (fun t => t)
      "a" "b" (by decide) (by decide) (by decide) (by decide)).2.2.1,
    (password_roundtrip (fun pw h => h == "B" ++ pw) (fun t => "B" ++ t) (fun t => t)
      "a" "b" (by decide) (by decide) (by decide) (by decide)).2.2.2⟩

end ECommerce
